import Mathlib

/-!
Verification of the `@hamk-uas/eslint-plugin-jax-js` consumption analysis.

This file gives a shallow embedding of the plugin's core analysis code:

* the ESTree-like syntax tree the rules walk (`Node` / `Shape`), with each
  node carrying its source range (start/end character offsets) and start line,
  as the rules read `node.range` and `node.loc.start.line`;
* the constant name tables from `src/shared.ts` and
  `src/api-surface.generated.ts`;
* the classifier and control-flow helpers of
  `src/rules/no-use-after-consume.ts` (`getConsumingSite`, `isSafeCallee`,
  `areInMutuallyExclusiveBranches`, `getConditionalAncestor`,
  `getEnclosingLoop`, `getTerminatingIfAncestor`, `blockTerminates`,
  `isInArgumentsOfSameConsumingCall`, `isConsumeAndReassign`,
  `isInNestedFunction`, `lineHasJaxBorrow`) and the rule's per-binding scan
  loop (`create` / `VariableDeclarator`);
* the `no-unnecessary-ref` rule's handler and its path helpers.

Node identity (JavaScript `===` on tree nodes) is modelled by tree position:
a reference is addressed by its `Path`, the list of child indices from the
Program root.  The upward `parentOf` walks of the source become folds over
`ancestorChain`, which lists each ancestor together with the child slot the
walk came up through; the slot index replaces the source's identity tests
such as `parent.object === identifier` (object is child slot 0 of a
MemberExpression, and so on, fixed by `childrenOf`).

Scope objects of ESLint's scope analysis are not part of this repository's
sources (the spec assumes identifier/scope resolution as available input);
a reference therefore carries the list of scope kinds encountered walking
from its own scope up to the binding's declaring scope, which is exactly
what `isInNestedFunction` / `isClosureCapture` inspect.
-/

namespace JaxLint

/-- A tree position: the list of child indices from the root node. -/
abbrev Path := List Nat

mutual

/-- A syntax tree node: start offset, end offset (`node.range`), start line
(`node.loc.start.line`, 1-based) and the node's shape. -/
inductive Node : Type where
  | mk : Nat → Nat → Nat → Shape → Node
  deriving Repr

/-- The ESTree node kinds the plugin's walks distinguish.  Node kinds the
rules never name (class bodies, object literals, ...) are not needed by any
claim and are omitted; the walks treat every unlisted kind uniformly by
falling through to the default case, exactly as the source's
`parent.type === ...` chains do. -/
inductive Shape : Type where
  | identifier : String → Shape
  | member : Node → Node → Bool → Shape        -- object, property, computed
  | call : Node → List Node → Shape            -- callee, arguments
  | superNode : Shape                          -- `Super` callee
  | conditional : Node → Node → Node → Shape   -- test, consequent, alternate
  | logical : Node → Node → Shape              -- left, right
  | assignment : Node → Node → Shape           -- left, right
  | ifStmt : Node → Node → Option Node → Shape -- test, consequent, alternate
  | block : List Node → Shape
  | returnStmt : Option Node → Shape
  | throwStmt : Node → Shape
  | breakStmt : Shape
  | continueStmt : Shape
  | exprStmt : Node → Shape
  | varDecl : List Node → Shape                -- VariableDeclaration
  | varDeclarator : Node → Option Node → Shape -- id, init
  | forStmt : Node → Node → Node → Node → Shape -- init, test, update, body
  | whileStmt : Node → Node → Shape            -- test, body
  | doWhileStmt : Node → Node → Shape          -- body, test
  | forOfStmt : Node → Node → Node → Shape     -- left, right, body
  | forInStmt : Node → Node → Node → Shape     -- left, right, body
  | arrowFn : List Node → Node → Shape         -- params, body
  | funcExpr : List Node → Node → Shape        -- params, body
  | funcDecl : Node → List Node → Node → Shape -- id, params, body
  | program : List Node → Shape
  | arrayExpr : List Node → Shape
  | spread : Node → Shape
  | lit : Nat → Shape                          -- literal (value unused)
  | paren : Node → Shape                       -- transparent wrapper
  | awaitExpr : Node → Shape
  deriving Repr

end

def Node.rangeStart : Node → Nat
  | .mk s _ _ _ => s

def Node.rangeEnd : Node → Nat
  | .mk _ e _ _ => e

def Node.line : Node → Nat
  | .mk _ _ l _ => l

def Node.shape : Node → Shape
  | .mk _ _ _ sh => sh

def optList : Option Node → List Node
  | some n => [n]
  | none => []

/-- The ordered child list of a node; the position of each child in this
list is the "slot" used to model the source's identity tests
(`parent.object === identifier`, `call.arguments.includes(node)`, ...). -/
def childrenOf : Shape → List Node
  | .identifier _ => []
  | .member o p _ => [o, p]
  | .call c args => c :: args
  | .superNode => []
  | .conditional t c a => [t, c, a]
  | .logical l r => [l, r]
  | .assignment l r => [l, r]
  | .ifStmt t c a => [t, c] ++ optList a
  | .block b => b
  | .returnStmt a => optList a
  | .throwStmt a => [a]
  | .breakStmt => []
  | .continueStmt => []
  | .exprStmt e => [e]
  | .varDecl ds => ds
  | .varDeclarator i ini => i :: optList ini
  | .forStmt i t u b => [i, t, u, b]
  | .whileStmt t b => [t, b]
  | .doWhileStmt b t => [b, t]
  | .forOfStmt l r b => [l, r, b]
  | .forInStmt l r b => [l, r, b]
  | .arrowFn ps b => ps ++ [b]
  | .funcExpr ps b => ps ++ [b]
  | .funcDecl i ps b => i :: (ps ++ [b])
  | .program b => b
  | .arrayExpr es => es
  | .spread a => [a]
  | .lit _ => []
  | .paren e => [e]
  | .awaitExpr a => [a]

/-- The node addressed by a path, if the path is valid. -/
def nodeAt : Node → Path → Option Node
  | n, [] => some n
  | n, i :: rest =>
    match (childrenOf n.shape).get? i with
    | some c => nodeAt c rest
    | none => none

/-- One step of a parent walk: the ancestor node, the child slot the walk
came up through, and the ancestor's own path. -/
structure ChainEl where
  node : Node
  idx : Nat
  path : Path
  deriving Repr

/-- Builds the ancestor list of the node at `pref ++ p` inside `n` (whose own
path is `pref`), innermost parent first. -/
def chainFrom : Node → Path → Path → Option (List ChainEl)
  | _, _, [] => some []
  | n, pref, i :: rest =>
    match (childrenOf n.shape).get? i with
    | some c => (chainFrom c (pref ++ [i]) rest).map (fun l => l ++ [⟨n, i, pref⟩])
    | none => none

/-- All ancestors of the node at path `p`, innermost parent first; this is
the spine the source's `parentOf` loops traverse. -/
def ancestorChain (root : Node) (p : Path) : List ChainEl :=
  (chainFrom root [] p).getD []

/-- `node.range?.[0] ?? 0` for the node at a path. -/
def rangeStartAt (root : Node) (p : Path) : Nat :=
  match nodeAt root p with
  | some n => n.rangeStart
  | none => 0

/-- `node.range?.[1] ?? 0` for the node at a path. -/
def rangeEndAt (root : Node) (p : Path) : Nat :=
  match nodeAt root p with
  | some n => n.rangeEnd
  | none => 0

/-! ### Constant name tables

From `src/api-surface.generated.ts` and `src/shared.ts`. -/

/-- Public getters on Tracer and Array classes (non-consuming accesses). -/
def EXTRACTED_GETTERS : List String :=
  ["aval", "device", "dtype", "ndim", "ref", "refCount", "shape", "size",
   "weakType"]

/-- Public methods on Tracer and Array classes (consuming operations). -/
def EXTRACTED_METHODS : List String :=
  ["add", "all", "any", "argsort", "astype", "blockUntilReady", "data",
   "dataSync", "diagonal", "dispose", "div", "equal", "flatten", "greater",
   "greaterEqual", "item", "js", "jsAsync", "less", "lessEqual", "max",
   "mean", "min", "mod", "mul", "neg", "notEqual", "prod", "ravel",
   "reshape", "slice", "sort", "sub", "sum", "toString", "transpose"]

/-- Methods that consume the array and return a non-Array value. -/
def CONSUMING_TERMINAL_METHODS : List String :=
  ["data", "dataSync", "js", "jsAsync", "item", "dispose", "tolist",
   "tobytes"]

/-- Methods that are syntactically methods but do NOT consume the array. -/
def NON_CONSUMING_METHODS : List String :=
  ["toString", "blockUntilReady"]

/-- Getters/properties/methods that are NOT consuming. -/
def NON_CONSUMING_PROPS : List String :=
  EXTRACTED_GETTERS ++ NON_CONSUMING_METHODS

/-- Methods on Array/Tracer that consume `this` and return a new Array:
all extracted methods minus terminal and non-consuming ones. -/
def ARRAY_RETURNING_METHODS : List String :=
  EXTRACTED_METHODS.filter (fun m =>
    !(CONSUMING_TERMINAL_METHODS.contains m) &&
      !(NON_CONSUMING_METHODS.contains m))

/-- Factory / constructor names known to return a jax-js Array. -/
def ARRAY_FACTORY_NAMES : List String :=
  ["array", "zeros", "ones", "full", "eye", "identity", "arange",
   "linspace", "logspace", "zerosLike", "onesLike", "fullLike", "tri",
   "tril", "triu", "diag", "asarray", "concatenate", "stack", "vstack",
   "hstack", "dstack", "tile", "repeat", "meshgrid", "where", "empty",
   "emptyLike"]

/-- Methods that don't exist on standard JS types. -/
def UNAMBIGUOUS_ARRAY_METHODS : List String :=
  ["neg", "astype", "transpose", "reshape", "ravel", "argsort", "diagonal",
   "greaterEqual", "lessEqual", "notEqual", "flatten", "squeeze",
   "expandDims", "swapaxes", "broadcastTo", "conj", "clip"]

/-- Object names whose method calls never consume jax arrays. -/
def SAFE_CALLEE_OBJECTS : List String :=
  ["console", "assert", "JSON", "Object", "Array", "Math"]

/-- Bare function names known not to consume jax arrays. -/
def SAFE_CALLEE_NAMES : List String :=
  ["expect", "assert", "String", "Number", "Boolean", "parseInt",
   "parseFloat", "isNaN", "isFinite", "describe", "it", "test"]

/-! ### Consumption detection (`no-use-after-consume.ts`) -/

/-- The `callee.type === "Super"` check: superclass-constructor calls are
not tracked as consuming. -/
def isSuperCallee (callee : Node) : Bool :=
  match callee.shape with
  | .superNode => true
  | _ => false

/-- Is the callee known not to consume jax arrays?  (`isSafeCallee`) -/
def isSafeCallee (callee : Node) : Bool :=
  match callee.shape with
  | .identifier name => SAFE_CALLEE_NAMES.contains name
  | .member obj _ _ =>
    match obj.shape with
    | .identifier name => SAFE_CALLEE_OBJECTS.contains name
    | _ => false
  | _ => false

/-- Human-readable description of a callee expression. (`describeCallee`) -/
def describeCallee (callee : Node) : String :=
  match callee.shape with
  | .identifier name => name ++ "()"
  | .member obj propN computed =>
    if !computed then
      match propN.shape with
      | .identifier pn =>
        match obj.shape with
        | .identifier obn => obn ++ "." ++ pn ++ "()"
        | .member o2 p2 c2 =>
          if !c2 then
            match p2.shape, o2.shape with
            | .identifier p2n, .identifier o2n =>
              o2n ++ "." ++ p2n ++ "." ++ pn ++ "()"
            | _, _ => "a function call"
          else "a function call"
        | _ => "a function call"
      | _ => "a function call"
    else "a function call"
  | _ => "a function call"

/-- `"method" = x.method(), "argument" = np.func(x)` -/
inductive SiteKind where
  | method
  | argument
  deriving Repr, DecidableEq

/-- A classified consuming reference (`ConsumingSite`); the identifier node
is recorded by its path (used for the `.ref` insertion fix). -/
structure ConsumingSite where
  description : String
  path : Path
  kind : SiteKind
  deriving Repr, DecidableEq

/-- `getConsumingSite`: does this reference consume the variable, and how?
Pattern 1 is a method call `x.method(...)` with a known array-returning or
terminal method; pattern 2 is `x` passed directly as an argument of any
call, except a `super(...)` call or a safe callee. -/
def getConsumingSite (root : Node) (p : Path) : Option ConsumingSite :=
  match ancestorChain root p with
  | [] => none
  | parentEl :: rest =>
    match parentEl.node.shape with
    | .member _ propN computed =>
      if parentEl.idx == 0 && !computed then
        match propN.shape with
        | .identifier prop =>
          if !(ARRAY_RETURNING_METHODS.contains prop) &&
              !(CONSUMING_TERMINAL_METHODS.contains prop) then none
          else
            match rest with
            | gpEl :: _ =>
              match gpEl.node.shape with
              | .call _ _ =>
                if gpEl.idx == 0 then
                  some ⟨"." ++ prop ++ "()", p, .method⟩
                else none
              | _ => none
            | [] => none
        | _ => none
      else none
    | .call callee _ =>
      if 1 ≤ parentEl.idx then
        if isSuperCallee callee then none
        else if isSafeCallee callee then none
        else some ⟨describeCallee callee, p, .argument⟩
      else none
    | _ => none

/-! ### Branch exclusivity (`areInMutuallyExclusiveBranches` and helpers) -/

/-- Descendant-of-or-equal, the source's `isDescendantOf`: with positions,
`anc` is an ancestor-or-self of `p` exactly when its path is a prefix. -/
def isDescendantOfPath (p anc : Path) : Bool :=
  anc.isPrefixOf p

/-- `getIfAncestors`: every IfStatement ancestor of the node, innermost
first (the source walks all the way to the Program root). -/
def getIfAncestors (root : Node) (p : Path) : List Path :=
  (ancestorChain root p).filterMap (fun el =>
    match el.node.shape with
    | .ifStmt _ _ _ => some el.path
    | _ => none)

/-- `getIfBranchSide`: which branch of the `if` at `ifPath` contains the
node at `p` (the child of the `if` on the walk up from `p`): slot 1 is the
consequent, slot 2 the alternate; the test (slot 0) and non-descendants
give `none`. -/
def getIfBranchSide (p ifPath : Path) : Option Bool :=
  if ifPath.isPrefixOf p && ifPath.length < p.length then
    match p.get? ifPath.length with
    | some 1 => some true     -- consequent
    | some 2 => some false    -- alternate
    | _ => none
  else none

/-- `getConditionalAncestor` walk over the ancestor chain: the nearest
ternary branch (consequent/alternate, slots 1/2) or logical right operand
(slot 1) holding the node, stopping at statement and function boundaries. -/
def condAncChain : List ChainEl → Option Path
  | [] => none
  | el :: rest =>
    match el.node.shape with
    | .conditional _ _ _ =>
      if el.idx == 1 || el.idx == 2 then some el.path else condAncChain rest
    | .logical _ _ =>
      if el.idx == 1 then some el.path else condAncChain rest
    | .exprStmt _ => none
    | .varDecl _ => none
    | .returnStmt _ => none
    | .arrowFn _ _ => none
    | .funcExpr _ _ => none
    | .funcDecl _ _ _ => none
    | _ => condAncChain rest

/-- `getConditionalAncestor`. -/
def getConditionalAncestor (root : Node) (p : Path) : Option Path :=
  condAncChain (ancestorChain root p)

/-- `areInMutuallyExclusiveBranches`: the two nodes sit in opposite branches
of a shared IfStatement, or in the consequent/alternate pair of the same
ConditionalExpression.  (For logical expressions the source returns
`false`.) -/
def areInMutuallyExclusiveBranches (root : Node) (p1 p2 : Path) : Bool :=
  ((getIfAncestors root p1).any (fun ifp =>
      match getIfBranchSide p1 ifp, getIfBranchSide p2 ifp with
      | some s1, some s2 => s1 != s2
      | _, _ => false))
  ||
  (match getConditionalAncestor root p1, getConditionalAncestor root p2 with
   | some c1, some c2 =>
     if c1 == c2 then
       match nodeAt root c1 with
       | some n =>
         match n.shape with
         | .conditional _ _ _ =>
           let inConsequent1 := isDescendantOfPath p1 (c1 ++ [1])
           let inAlternate1 := isDescendantOfPath p1 (c1 ++ [2])
           let inConsequent2 := isDescendantOfPath p2 (c1 ++ [1])
           let inAlternate2 := isDescendantOfPath p2 (c1 ++ [2])
           (inConsequent1 && inAlternate2) || (inAlternate1 && inConsequent2)
         | _ => false
       | none => false
     else false
   | _, _ => false)

/-! ### Expression evaluation order (`isInArgumentsOfSameConsumingCall`) -/

/-- `isDescendantOfArguments`: the walk up from `refPath` meets one of the
call's arguments before meeting the call itself exactly when the call's
path is a proper prefix of `refPath` and the next step goes into an
argument slot (slot 0 is the callee). -/
def isDescendantOfArguments (refPath callPath : Path) : Bool :=
  callPath.isPrefixOf refPath &&
    (match refPath.drop callPath.length with
     | [] => false
     | i :: _ => 1 ≤ i)

/-- `isInArgumentsOfSameConsumingCall`: is the reference inside the argument
list of the very call the active consumer belongs to?  Arguments evaluate
before the call, so such a read is not a use-after-consume. -/
def isInArgumentsOfSameConsumingCall (root : Node) (refPath : Path)
    (site : ConsumingSite) : Bool :=
  let callPath? : Option Path :=
    match site.kind with
    | .method =>
      match ancestorChain root site.path with
      | memberEl :: callEl :: _ =>
        match memberEl.node.shape with
        | .member _ _ _ => some callEl.path
        | _ => none
      | _ => none
    | .argument =>
      match ancestorChain root site.path with
      | callEl :: _ => some callEl.path
      | [] => none
  match callPath? with
  | some cp =>
    match nodeAt root cp with
    | some c =>
      match c.shape with
      | .call _ _ => isDescendantOfArguments refPath cp
      | _ => false
    | none => false
  | none => false

/-! ### Loop detection (`getEnclosingLoop`) -/

/-- The child slot holding a loop statement's body, for the five loop kinds
(matching the `parent.body === current` tests of the source). -/
def bodySlotOfLoop : Shape → Option Nat
  | .forStmt _ _ _ _ => some 3
  | .whileStmt _ _ => some 1
  | .doWhileStmt _ _ => some 0
  | .forOfStmt _ _ _ => some 2
  | .forInStmt _ _ _ => some 2
  | _ => none

/-- `getEnclosingLoop` walk: the nearest loop whose body holds the node,
also recognised one step early when the direct parent is the loop body's
BlockStatement, stopping at function boundaries. -/
def enclosingLoopChain : List ChainEl → Option Path
  | [] => none
  | el :: rest =>
    if (match bodySlotOfLoop el.node.shape with
        | some b => el.idx == b
        | none => false) then
      some el.path
    else
      match el.node.shape with
      | .block _ =>
        match rest with
        | gpEl :: _ =>
          if (match bodySlotOfLoop gpEl.node.shape with
              | some b => gpEl.idx == b
              | none => false) then
            some gpEl.path
          else enclosingLoopChain rest
        | [] => enclosingLoopChain rest
      | .arrowFn _ _ => none
      | .funcExpr _ _ => none
      | .funcDecl _ _ _ => none
      | _ => enclosingLoopChain rest

/-- `getEnclosingLoop`. -/
def getEnclosingLoop (root : Node) (p : Path) : Option Path :=
  enclosingLoopChain (ancestorChain root p)

/-! ### Early-terminating if-branch detection -/

mutual

/-- `blockTerminates`: does a statement or block definitely terminate
(return/throw/break/continue, recursively through blocks ending in a
terminating statement and ifs where both sides terminate)? -/
def blockTerminates : Node → Bool
  | .mk _ _ _ sh =>
    match sh with
    | .returnStmt _ => true
    | .throwStmt _ => true
    | .breakStmt => true
    | .continueStmt => true
    | .block body => lastTerminates body
    | .ifStmt _ c a =>
      blockTerminates c &&
        (match a with
         | some alt => blockTerminates alt
         | none => false)
    | _ => false

/-- `body.length > 0 && blockTerminates(body[body.length - 1])`. -/
def lastTerminates : List Node → Bool
  | [] => false
  | [n] => blockTerminates n
  | _ :: rest => lastTerminates rest

end

/-- `getTerminatingIfAncestor` walk: the nearest `if` whose consequent or
alternate containing the node provably terminates, also recognised one step
early at the branch's BlockStatement, stopping at function boundaries.
The child the walk came up through is reconstructed from the slot index. -/
def termIfChain : List ChainEl → Option Path
  | [] => none
  | el :: rest =>
    match el.node.shape with
    | .ifStmt _ c a =>
      if el.idx == 1 && blockTerminates c then some el.path
      else if el.idx == 2 &&
          (match a with
           | some alt => blockTerminates alt
           | none => false) then some el.path
      else termIfChain rest
    | .block _ =>
      match rest with
      | gpEl :: _ =>
        match gpEl.node.shape with
        | .ifStmt _ _ _ =>
          if gpEl.idx == 1 && blockTerminates el.node then some gpEl.path
          else if gpEl.idx == 2 && blockTerminates el.node then some gpEl.path
          else termIfChain rest
        | .arrowFn _ _ => none
        | .funcExpr _ _ => none
        | .funcDecl _ _ _ => none
        | _ => termIfChain rest
      | [] => termIfChain rest
    | .arrowFn _ _ => none
    | .funcExpr _ _ => none
    | .funcDecl _ _ _ => none
    | _ => termIfChain rest

/-- `getTerminatingIfAncestor`. -/
def getTerminatingIfAncestor (root : Node) (p : Path) : Option Path :=
  termIfChain (ancestorChain root p)

/-! ### Consume-and-reassign detection (`isConsumeAndReassign`) -/

/-- `isConsumeAndReassign` walk: is the consuming identifier inside the
right-hand side of an assignment writing back to the same variable
(`x = x.method(...)`), stopping at statement and function boundaries? -/
def consumeReassignChain (varName : String) : List ChainEl → Bool
  | [] => false
  | el :: rest =>
    match el.node.shape with
    | .assignment l _ =>
      if el.idx == 1 &&
          (match l.shape with
           | .identifier n => n == varName
           | _ => false) then true
      else consumeReassignChain varName rest
    | .exprStmt _ => false
    | .varDecl _ => false
    | .returnStmt _ => false
    | .arrowFn _ _ => false
    | .funcExpr _ _ => false
    | .funcDecl _ _ _ => false
    | _ => consumeReassignChain varName rest

/-- `isConsumeAndReassign`. -/
def isConsumeAndReassign (root : Node) (p : Path) (varName : String) : Bool :=
  consumeReassignChain varName (ancestorChain root p)

/-! ### Scope helpers -/

/-- `isInNestedFunction`: a function scope lies between the reference's
scope and the variable's declaring scope.  `refScopes` is the list of scope
kind strings the source's `while` loop visits (from `ref.from` up to, and
excluding, `variable.scope`, or up to the root when the declaring scope is
not on the chain). -/
def isInNestedFunction (refScopes : List String) : Bool :=
  refScopes.any (fun t => t == "function")

/-! ### The `@jax-borrow` comment directive -/

/-- Does the character list start with the given needle? -/
def charsStartWith : List Char → List Char → Bool
  | [], _ => true
  | _ :: _, [] => false
  | a :: as, b :: bs => a == b && charsStartWith as bs

/-- Does the needle occur contiguously anywhere in the character list? -/
def charsContain (needle : List Char) : List Char → Bool
  | [] => charsStartWith needle []
  | b :: bs => charsStartWith needle (b :: bs) || charsContain needle bs

/-- The test of the source's regular expression `/\/[\x2f*].*@jax-borrow/`
against one source line: a slash followed by a slash or star, with
`@jax-borrow` occurring anywhere later in the line. -/
def jaxBorrowTest : List Char → Bool
  | [] => false
  | c :: rest =>
    (c == '/' &&
      (match rest with
       | b :: rest2 =>
         (b == '/' || b == '*') && charsContain "@jax-borrow".toList rest2
       | [] => false))
    || jaxBorrowTest rest

/-- `lineHasJaxBorrow`: the call containing the identifier has a
`@jax-borrow` comment directive on the same line or the line above.
`line` is the call's 1-based start line (`call?.loc?.start.line`),
`sourceLines` the file split on newlines. -/
def lineHasJaxBorrow (sourceLines : List String) (line : Nat) : Bool :=
  if line == 0 then false
  else
    [line - 1, line].any (fun ln =>
      if ln < 1 then false
      else
        match sourceLines.get? (ln - 1) with
        | some lineText => jaxBorrowTest lineText.toList
        | none => false)

/-- `lineHasJaxBorrow` applied to a reference: the line is taken from the
identifier's parent (the call, for argument sites), falling back to the
identifier itself when there is no parent. -/
def lineHasJaxBorrowAt (root : Node) (sourceLines : List String)
    (identPath : Path) : Bool :=
  let line :=
    match ancestorChain root identPath with
    | parentEl :: _ => parentEl.node.line
    | [] =>
      match nodeAt root identPath with
      | some n => n.line
      | none => 0
  lineHasJaxBorrow sourceLines line

/-! ### Array-init heuristics (`shared.ts`) -/

/-- Does a callee look like `array(...)`, `np.zeros(...)`, etc.?
(`isArrayFactory`) -/
def isArrayFactory (callee : Node) : Bool :=
  match callee.shape with
  | .identifier name => ARRAY_FACTORY_NAMES.contains name
  | .member _ propN computed =>
    if computed then false
    else
      match propN.shape with
      | .identifier pn => ARRAY_FACTORY_NAMES.contains pn
      | _ => false
  | _ => false

/-- `unwrapTransparentExpression`: the source strips casts, non-null
assertions and parentheses; of those wrapper kinds only the parenthesis
node exists in this model, so the loop peels `paren` wrappers. -/
def unwrapTransparentExpression : Node → Node
  | .mk _ _ _ (.paren e) => unwrapTransparentExpression e
  | n => n

/-- `isArrayInit` on a present initializer: the source first unwraps
transparent wrappers and then tests the node; peeling one wrapper at a time
before testing is the same computation, and lets the recursion through
`await` stay structural. -/
def isArrayInitCore : Node → Bool
  | .mk _ _ _ sh =>
    match sh with
    | .paren e => isArrayInitCore e
    | .awaitExpr arg => isArrayInitCore arg
    | .call callee _ =>
      if isArrayFactory callee then true
      else
        match callee.shape with
        | .member _ propN computed =>
          if computed then false
          else
            match propN.shape with
            | .identifier pn => UNAMBIGUOUS_ARRAY_METHODS.contains pn
            | _ => false
        | _ => false
    | .member _ propN computed =>
      if computed then false
      else
        match propN.shape with
        | .identifier pn => pn == "ref"
        | _ => false
    | _ => false

/-- `isArrayInit`: does an initializer expression look like it produces a
jax-js Array?  (Factory call, unambiguous array-method call, a `.ref`
member access, or an awaited one of those.) -/
def isArrayInit : Option Node → Bool
  | none => false
  | some ini => isArrayInitCore ini

/-! ### The per-binding scan (`create` / `VariableDeclarator`) -/

/-- One resolved reference of the tracked binding, in source order.
`scopesBetween` lists the scope kinds between the reference's scope and the
binding's declaring scope (see `isInNestedFunction`). -/
structure Ref where
  path : Path
  isWrite : Bool
  isRead : Bool
  scopesBetween : List String
  deriving Repr, DecidableEq

/-- A reported use-after-consume violation: the offending reference, the
binding name, the blamed site's description and line, and the suggested fix
(insert `.ref` directly after the identifier at `fixInsertRefAfterPath`). -/
structure Violation where
  refPath : Path
  name : String
  consumedByDescription : String
  consumedLine : Nat
  fixInsertRefAfterPath : Path
  deriving Repr, DecidableEq

/-- The scan's mutable per-binding state: the active consuming site and the
three control-flow tags captured when it was set. -/
structure ScanState where
  consumedBy : Option ConsumingSite
  consumedInIf : Option Path
  consumedInConditional : Option Path
  consumedInLoop : Option Path
  deriving Repr, DecidableEq

/-- The all-clear state (also what a write reference resets to). -/
def emptySt : ScanState := ⟨none, none, none, none⟩

/-- Reset block 1: consuming site inside a terminating if-branch and the
reference lies at/after that `if`'s end. -/
def applyIfReset (root : Node) (refStart : Nat) (st : ScanState) : ScanState :=
  match st.consumedBy, st.consumedInIf with
  | some _, some p => if rangeEndAt root p ≤ refStart then emptySt else st
  | _, _ => st

/-- Reset block 2: consuming site inside a conditional expression and the
reference lies after it. -/
def applyCondReset (root : Node) (refStart : Nat) (st : ScanState) : ScanState :=
  match st.consumedBy, st.consumedInConditional with
  | some _, some p => if rangeEndAt root p ≤ refStart then emptySt else st
  | _, _ => st

/-- Reset block 3: consuming site inside a loop body and the reference lies
after the loop. -/
def applyLoopReset (root : Node) (refStart : Nat) (st : ScanState) : ScanState :=
  match st.consumedBy, st.consumedInLoop with
  | some _, some p => if rangeEndAt root p ≤ refStart then emptySt else st
  | _, _ => st

/-- The tail of the loop body (after the violation report): skip closure
references, classify, and install a fresh consuming site with freshly
computed control-flow tags — unless the site is the right-hand side of a
reassignment back to the binding, or an argument-pass site whose call line
carries the `@jax-borrow` directive. -/
def stepThree (root : Node) (sourceLines : List String) (varName : String)
    (st : ScanState) (ref : Ref) : ScanState × List Violation :=
  if isInNestedFunction ref.scopesBetween then (st, [])
  else
    match getConsumingSite root ref.path with
    | some site =>
      if isConsumeAndReassign root ref.path varName then (st, [])
      else if site.kind == .argument &&
          lineHasJaxBorrowAt root sourceLines site.path then (st, [])
      else
        (⟨some site,
          getTerminatingIfAncestor root ref.path,
          getConditionalAncestor root ref.path,
          getEnclosingLoop root ref.path⟩, [])
    | none => (st, [])

/-- One iteration of the source's `for (const ref of refs)` loop: write
refs clear the state; reads first re-validate the three control-flow tags,
then apply the evaluation-order and mutual-exclusion exceptions, then
either report a violation blaming the stored site or classify the read as
a fresh consuming site. -/
def processRef (root : Node) (sourceLines : List String) (varName : String)
    (st : ScanState) (ref : Ref) : ScanState × List Violation :=
  if ref.isWrite then (emptySt, [])
  else if !ref.isRead then (st, [])
  else
    let refStart := rangeStartAt root ref.path
    let st1 := applyIfReset root refStart st
    let st2 := applyCondReset root refStart st1
    let st3 := applyLoopReset root refStart st2
    match st3.consumedBy with
    | some site =>
      if isInArgumentsOfSameConsumingCall root ref.path site then (st3, [])
      else if areInMutuallyExclusiveBranches root ref.path site.path then
        match getConsumingSite root ref.path with
        | some siteInOtherBranch =>
          if !(isConsumeAndReassign root ref.path varName) then
            (⟨some siteInOtherBranch,
              getTerminatingIfAncestor root ref.path,
              none,
              getEnclosingLoop root ref.path⟩, [])
          else stepThree root sourceLines varName emptySt ref
        | none => stepThree root sourceLines varName emptySt ref
      else
        (st3,
         [⟨ref.path, varName, site.description,
           (match nodeAt root site.path with
            | some n => n.line
            | none => 0),
           site.path⟩])
    | none => stepThree root sourceLines varName st3 ref

/-- The scan over the binding's reference list, in source order,
accumulating reported violations. -/
def scanRefs (root : Node) (sourceLines : List String) (varName : String)
    (st : ScanState) : List Ref → ScanState × List Violation
  | [] => (st, [])
  | r :: rest =>
    let out := processRef root sourceLines varName st r
    let outRest := scanRefs root sourceLines varName out.1 rest
    (outRest.1, out.2 ++ outRest.2)

/-- The `VariableDeclarator` handler for one declarator `varName = init`
with resolved reference list `refs` (the declaration identifier itself
already excluded): bindings whose initializer is not a recognised array
producer are skipped, the rest are scanned. -/
def analyzeBinding (root : Node) (sourceLines : List String)
    (varName : String) (ini : Option Node) (refs : List Ref) :
    List Violation :=
  if isArrayInit ini then
    (scanRefs root sourceLines varName emptySt refs).2
  else []

/-! ### The `no-unnecessary-ref` rule -/

/-- `isClosureCapture`: a function scope boundary lies between the
variable's defining scope and the reference scope; `scopes` lists the scope
kinds the source's `while` loop visits. -/
def isClosureCapture (scopes : List String) : Bool :=
  scopes.any (fun t => t == "function")

/-- `getTrackedTarget`'s result: the root identifier's name and start
offset, and the dotted member path being tracked. -/
structure TrackedTarget where
  rootName : String
  rootStart : Nat
  targetPath : String
  deriving Repr, DecidableEq

/-- `getTrackedTarget`: an identifier, or an uncomputed member chain rooted
at an identifier, yields the dotted path; anything else is untrackable. -/
def getTrackedTarget : Node → Option TrackedTarget
  | .mk s _ _ (.identifier name) => some ⟨name, s, name⟩
  | .mk _ _ _ (.member obj propN computed) =>
    if computed then none
    else
      match propN.shape with
      | .identifier pn =>
        (getTrackedTarget obj).bind (fun t =>
          some ⟨t.rootName, t.rootStart, t.targetPath ++ "." ++ pn⟩)
      | _ => none
  | _ => none

/-- The member-chain suffix above a reference identifier: the property
names collected while the parent is an uncomputed member expression whose
object is the current node (`getReferencePath`'s loop). -/
def memberChainProps : List ChainEl → List String
  | [] => []
  | el :: rest =>
    match el.node.shape with
    | .member _ propN computed =>
      if el.idx == 0 && !computed then
        match propN.shape with
        | .identifier pn => pn :: memberChainProps rest
        | _ => []
      else []
    | _ => []

/-- The `parts.join(".")` of the source, on the collected name parts. -/
def joinDotted : List String → String
  | [] => ""
  | [x] => x
  | x :: xs => x ++ "." ++ joinDotted xs

/-- `getReferencePath`: the dotted path of a reference, e.g. `x.ref.add`
for the `x` of `x.ref.add(1)`. -/
def getReferencePath (root : Node) (p : Path) : String :=
  let base :=
    match nodeAt root p with
    | some n =>
      match n.shape with
      | .identifier s => s
      | _ => ""
    | none => ""
  joinDotted (base :: memberChainProps (ancestorChain root p))

/-- The JavaScript `refPath.startsWith(prefixStr)` on the two strings'
character lists. -/
def strStartsWith (prefixStr s : String) : Bool :=
  charsStartWith prefixStr.toList s.toList

/-- `getFirstPropertyAfterTarget`: the first property name following the
target path in the reference's dotted path, if any; the source's
`suffix.split(".")[0]` is the longest dot-free leading segment of the
suffix. -/
def getFirstPropertyAfterTarget (root : Node) (refP : Path)
    (targetPath : String) : Option String :=
  let rp := getReferencePath root refP
  if strStartsWith (targetPath ++ ".") rp then
    let suffix := rp.toList.drop (targetPath.toList.length + 1)
    if suffix.isEmpty then none
    else some (String.mk (suffix.takeWhile (fun c => c != '.')))
  else none

/-- `isNonConsumingForTarget`. -/
def isNonConsumingForTarget (root : Node) (refP : Path)
    (targetPath : String) : Bool :=
  match getFirstPropertyAfterTarget root refP targetPath with
  | some firstProp => NON_CONSUMING_PROPS.contains firstProp
  | none => false

/-- `isRefAccessForTarget`. -/
def isRefAccessForTarget (root : Node) (refP : Path)
    (targetPath : String) : Bool :=
  getFirstPropertyAfterTarget root refP targetPath == some "ref"

/-- A reference input for the `no-unnecessary-ref` rule (the binding's
whole `variable.references` list, declaration included). -/
structure URRef where
  path : Path
  isWrite : Bool
  isRead : Bool
  deriving Repr, DecidableEq

/-- A `no-unnecessary-ref` report: either the guaranteed-leak report with
the autofix that removes the `.ref` marker of the member at `memberPath`,
or the only-non-consuming-properties report with the collected property
names and the suggested fix appending `name.dispose();` after offset
`disposeAfterEnd` (the end of the statement containing the last read). -/
inductive URReport where
  | unnecessaryRef (memberPath : Path)
  | onlyProps (memberPath : Path) (props : List String)
      (disposeAfterEnd : Option Nat)
  deriving Repr, DecidableEq

/-- The props-collecting `after.every(...)` loop: `none` when some later
read is consuming, otherwise the deduplicated first-property names of the
later non-consuming reads, in order of first occurrence. -/
def collectNonConsumingProps (root : Node) (targetPath : String)
    (acc : List String) : List URRef → Option (List String)
  | [] => some acc
  | r :: rest =>
    if !r.isRead then collectNonConsumingProps root targetPath acc rest
    else
      match getFirstPropertyAfterTarget root r.path targetPath with
      | some p =>
        if NON_CONSUMING_PROPS.contains p then
          collectNonConsumingProps root targetPath
            (if acc.contains p then acc else acc ++ [p]) rest
        else none
      | none => none

/-- The statement-end walk of the dispose suggestion: climb from the last
read's parent while the next parent exists and is neither the Program nor
a BlockStatement, and take that node's range end. -/
def stmtNodeEnd : Node → List ChainEl → Nat
  | cur, [] => cur.rangeEnd
  | cur, el :: rest =>
    match el.node.shape with
    | .program _ => cur.rangeEnd
    | .block _ => cur.rangeEnd
    | _ => stmtNodeEnd el.node rest

/-- End offset of the statement containing the reference at `p`. -/
def stmtEndFor (root : Node) (p : Path) : Option Nat :=
  match ancestorChain root p with
  | el :: rest => some (stmtNodeEnd el.node rest)
  | [] =>
    match nodeAt root p with
    | some n => some n.rangeEnd
    | none => none

/-- The handler's `allRefs` filter: references whose dotted path equals the
target path or extends it by a property access. -/
def urRefFilter (root : Node) (target : TrackedTarget)
    (refs : List URRef) : List URRef :=
  refs.filter (fun r =>
    let rp := getReferencePath root r.path
    rp == target.targetPath || strStartsWith (target.targetPath ++ ".") rp)

/-- The handler's `findIndex`: the position of the matched `.ref` access
(a ref-access on the target whose identifier starts where the matched
member's object does). -/
def urRefIdx (root : Node) (target : TrackedTarget)
    (allRefs : List URRef) : Option Nat :=
  allRefs.findIdx? (fun r =>
    isRefAccessForTarget root r.path target.targetPath &&
      rangeStartAt root r.path == target.rootStart)

/-- The prior-consumption bail-out: some read before the `.ref` access is
not a non-consuming property access (so the marker is justified). -/
def urPriorConsuming (root : Node) (target : TrackedTarget)
    (allRefs : List URRef) (idx : Nat) : Bool :=
  (allRefs.take idx).any (fun r =>
    r.isRead && !(isNonConsumingForTarget root r.path target.targetPath))

/-- Some later read is itself a `.ref` access on the same target. -/
def urLaterRefAccess (root : Node) (target : TrackedTarget)
    (after : List URRef) : Bool :=
  after.any (fun r =>
    r.isRead && isRefAccessForTarget root r.path target.targetPath)

/-- The report built for the all-non-consuming-suffix case. -/
def urOnlyPropsReport (root : Node) (memberPath : Path)
    (props : List String) (after : List URRef) : URReport :=
  .onlyProps memberPath props
    (((after.reverse).find? (fun r => r.isRead)).bind (fun r =>
      stmtEndFor root r.path))

/-- The `no-unnecessary-ref` handler for one matched
`MemberExpression[property.name="ref"][computed=false]` node at
`memberPath`.  `refs` is the tracked variable's reference list, `borrowed`
the value of `isBorrowedBinding(variable)` (a judgement on the variable's
definition records), and `scopes` the scope kinds between the reference
scope and the variable's scope (see `isClosureCapture`). -/
def noUnnecessaryRefCheck (root : Node) (memberPath : Path)
    (refs : List URRef) (borrowed : Bool) (scopes : List String) :
    Option URReport :=
  match nodeAt root memberPath with
  | none => none
  | some node =>
    match node.shape with
    | .member objNode propN computed =>
      if computed then none
      else
        match propN.shape with
        | .identifier pn =>
          if pn != "ref" then none
          else
            match getTrackedTarget objNode with
            | none => none
            | some target =>
              if borrowed then none
              else if isClosureCapture scopes then none
              else
                let allRefs := urRefFilter root target refs
                match urRefIdx root target allRefs with
                | none => none
                | some idx =>
                  if urPriorConsuming root target allRefs idx then none
                  else
                    let after := allRefs.drop (idx + 1)
                    if after.isEmpty then
                      some (.unnecessaryRef memberPath)
                    else if urLaterRefAccess root target after then none
                    else
                      match collectNonConsumingProps root target.targetPath
                          [] after with
                      | some props =>
                        if props.length > 0 then
                          some (urOnlyPropsReport root memberPath props after)
                        else none
                      | none => none
        | _ => none
    | _ => none

/-! ### Concrete example programs

Each program is the syntax tree of a short source file, with 0-based
character ranges and 1-based lines matching the quoted text. -/

/-- Identifier node. -/
def nId (s e ln : Nat) (nm : String) : Node := .mk s e ln (.identifier nm)

/-- Member-expression node (uncomputed). -/
def nMem (s e ln : Nat) (o p : Node) : Node := .mk s e ln (.member o p false)

/-- Call-expression node. -/
def nCall (s e ln : Nat) (c : Node) (args : List Node) : Node :=
  .mk s e ln (.call c args)

/-- Numeric-literal node. -/
def nLit (s e ln v : Nat) : Node := .mk s e ln (.lit v)

/-- Expression-statement node. -/
def nExpr (s e ln : Nat) (x : Node) : Node := .mk s e ln (.exprStmt x)

/-- Single-declarator variable declaration. -/
def nDecl (s e ln ds de : Nat) (idN ini : Node) : Node :=
  .mk s e ln (.varDecl [.mk ds de ln (.varDeclarator idN (some ini))])

/-- The statement `const x = np.zeros([3]);` at offset 0, line 1. -/
def stmtXDecl : Node :=
  nDecl 0 24 1 6 23 (nId 6 7 1 "x")
    (nCall 10 23 1 (nMem 10 18 1 (nId 10 12 1 "np") (nId 13 18 1 "zeros"))
      [.mk 19 22 1 (.arrayExpr [nLit 20 21 1 3])])

/-- `const x = np.zeros([3]); x.add(1); const f = () => x.shape;` -/
def progClosure : Node :=
  .mk 0 59 1 (.program
    [stmtXDecl,
     nExpr 25 34 1 (nCall 25 33 1
       (nMem 25 30 1 (nId 25 26 1 "x") (nId 27 30 1 "add")) [nLit 31 32 1 1]),
     nDecl 35 59 1 41 58 (nId 41 42 1 "f")
       (.mk 45 58 1 (.arrowFn []
         (nMem 51 58 1 (nId 51 52 1 "x") (nId 53 58 1 "shape"))))])

/-- References of `x` in `progClosure`: the read at `x.add(1)` and the read
inside the arrow function (one function scope between it and the declaring
scope). -/
def refsClosure : List Ref :=
  [⟨[1, 0, 0, 0], false, true, []⟩,
   ⟨[2, 0, 1, 0, 0], false, true, ["function"]⟩]

/-- `const x = np.zeros([3]); cond ? x.add(1) : x.sub(1); x.shape;` -/
def progTernary : Node :=
  .mk 0 61 1 (.program
    [stmtXDecl,
     nExpr 25 52 1 (.mk 25 51 1 (.conditional (nId 25 29 1 "cond")
       (nCall 32 40 1
         (nMem 32 37 1 (nId 32 33 1 "x") (nId 34 37 1 "add")) [nLit 38 39 1 1])
       (nCall 43 51 1
         (nMem 43 48 1 (nId 43 44 1 "x") (nId 45 48 1 "sub"))
         [nLit 49 50 1 1]))),
     nExpr 53 61 1 (nMem 53 60 1 (nId 53 54 1 "x") (nId 55 60 1 "shape"))])

/-- References of `x` in `progTernary`, in source order. -/
def refsTernary : List Ref :=
  [⟨[1, 0, 1, 0, 0], false, true, []⟩,
   ⟨[1, 0, 2, 0, 0], false, true, []⟩,
   ⟨[2, 0, 0], false, true, []⟩]

/-- ```
function f() {
  const x = np.zeros([3]);
  if (c) {
    return x.reshape([1, 3]);
  }
  return x.reshape([3, 1]);
}
``` -/
def progTermIf : Node :=
  .mk 0 116 1 (.program
    [.mk 0 116 1 (.funcDecl (nId 9 10 1 "f") []
      (.mk 13 116 1 (.block
        [nDecl 17 41 2 23 40 (nId 23 24 2 "x")
           (nCall 27 40 2
             (nMem 27 35 2 (nId 27 29 2 "np") (nId 30 35 2 "zeros"))
             [.mk 36 39 2 (.arrayExpr [nLit 37 38 2 3])]),
         .mk 44 86 3 (.ifStmt (nId 48 49 3 "c")
           (.mk 51 86 3 (.block
             [.mk 57 82 4 (.returnStmt (some
               (nCall 64 81 4
                 (nMem 64 73 4 (nId 64 65 4 "x") (nId 66 73 4 "reshape"))
                 [.mk 74 80 4 (.arrayExpr [nLit 75 76 4 1, nLit 78 79 4 3])])))]))
           none),
         .mk 89 114 6 (.returnStmt (some
           (nCall 96 113 6
             (nMem 96 105 6 (nId 96 97 6 "x") (nId 98 105 6 "reshape"))
             [.mk 106 112 6 (.arrayExpr [nLit 107 108 6 3, nLit 110 111 6 1])])))])))])

/-- References of `x` in `progTermIf`: one consuming read in each
return statement. -/
def refsTermIf : List Ref :=
  [⟨[0, 1, 1, 1, 0, 0, 0, 0], false, true, ["block"]⟩,
   ⟨[0, 1, 2, 0, 0, 0], false, true, []⟩]

/-- `const x = np.zeros([3]); while (c) { x.add(1); x.shape; }` -/
def progLoopInside : Node :=
  .mk 0 57 1 (.program
    [stmtXDecl,
     .mk 25 57 1 (.whileStmt (nId 32 33 1 "c")
       (.mk 35 57 1 (.block
         [nExpr 37 46 1 (nCall 37 45 1
            (nMem 37 42 1 (nId 37 38 1 "x") (nId 39 42 1 "add"))
            [nLit 43 44 1 1]),
          nExpr 47 55 1
            (nMem 47 54 1 (nId 47 48 1 "x") (nId 49 54 1 "shape"))])))])

/-- References of `x` in `progLoopInside`. -/
def refsLoopInside : List Ref :=
  [⟨[1, 1, 0, 0, 0, 0], false, true, ["block"]⟩,
   ⟨[1, 1, 1, 0, 0], false, true, ["block"]⟩]

/-- `let x = np.zeros([3]); while (c) { x.add(1); } x.dispose();` -/
def progLoopAfter : Node :=
  .mk 0 59 1 (.program
    [nDecl 0 22 1 4 21 (nId 4 5 1 "x")
       (nCall 8 21 1 (nMem 8 16 1 (nId 8 10 1 "np") (nId 11 16 1 "zeros"))
         [.mk 17 20 1 (.arrayExpr [nLit 18 19 1 3])]),
     .mk 23 46 1 (.whileStmt (nId 30 31 1 "c")
       (.mk 33 46 1 (.block
         [nExpr 35 44 1 (nCall 35 43 1
            (nMem 35 40 1 (nId 35 36 1 "x") (nId 37 40 1 "add"))
            [nLit 41 42 1 1])]))),
     nExpr 47 59 1 (nCall 47 58 1
       (nMem 47 56 1 (nId 47 48 1 "x") (nId 49 56 1 "dispose")) [])])

/-- References of `x` in `progLoopAfter`. -/
def refsLoopAfter : List Ref :=
  [⟨[1, 1, 0, 0, 0, 0], false, true, ["block"]⟩,
   ⟨[2, 0, 0, 0], false, true, []⟩]

/-- `const x = np.zeros([3]); x.reshape([1, ...x.shape]);` -/
def progArgsMethod : Node :=
  .mk 0 52 1 (.program
    [stmtXDecl,
     nExpr 25 52 1 (nCall 25 51 1
       (nMem 25 34 1 (nId 25 26 1 "x") (nId 27 34 1 "reshape"))
       [.mk 35 50 1 (.arrayExpr
         [nLit 36 37 1 1,
          .mk 39 49 1 (.spread
            (nMem 42 49 1 (nId 42 43 1 "x") (nId 44 49 1 "shape")))])])])

/-- References of `x` in `progArgsMethod`. -/
def refsArgsMethod : List Ref :=
  [⟨[1, 0, 0, 0], false, true, []⟩,
   ⟨[1, 0, 1, 1, 0, 0], false, true, []⟩]

/-- `const x = np.zeros([3]); foo(x, x.shape);` -/
def progArgsPass : Node :=
  .mk 0 41 1 (.program
    [stmtXDecl,
     nExpr 25 41 1 (nCall 25 40 1 (nId 25 28 1 "foo")
       [nId 29 30 1 "x",
        nMem 32 39 1 (nId 32 33 1 "x") (nId 34 39 1 "shape")])])

/-- References of `x` in `progArgsPass`. -/
def refsArgsPass : List Ref :=
  [⟨[1, 0, 1], false, true, []⟩,
   ⟨[1, 0, 2, 0], false, true, []⟩]

/-- A program passing `x` to an arbitrary callee:
`const x = np.zeros([3]); <callee>(x);` with the `x` argument at path
`[1, 0, 1]`. -/
def argProg (callee : Node) : Node :=
  .mk 0 40 1 (.program
    [stmtXDecl,
     nExpr 25 40 1 (nCall 25 39 1 callee [nId 30 31 1 "x"])])

/-- ```
const x = np.zeros([3]);
myLogger(x); // @jax-borrow
x.dispose();
``` -/
def progBorrow : Node :=
  .mk 0 65 1 (.program
    [stmtXDecl,
     nExpr 25 37 2 (nCall 25 36 2 (nId 25 33 2 "myLogger") [nId 34 35 2 "x"]),
     nExpr 53 65 3 (nCall 53 64 3
       (nMem 53 62 3 (nId 53 54 3 "x") (nId 55 62 3 "dispose")) [])])

/-- References of `x` in `progBorrow`. -/
def refsBorrow : List Ref :=
  [⟨[1, 0, 1], false, true, []⟩,
   ⟨[2, 0, 0, 0], false, true, []⟩]

/-- The source lines of `progBorrow` with the directive present. -/
def borrowLines : List String :=
  ["const x = np.zeros([3]);", "myLogger(x); // @jax-borrow",
   "x.dispose();"]

/-- The same lines with the directive absent. -/
def noBorrowLines : List String :=
  ["const x = np.zeros([3]);", "myLogger(x);", "x.dispose();"]

/-- ```
const x = np.zeros([3]);
x.add(1); x.shape; // @jax-borrow
``` -/
def progBorrowMethod : Node :=
  .mk 0 43 1 (.program
    [stmtXDecl,
     nExpr 25 34 2 (nCall 25 33 2
       (nMem 25 30 2 (nId 25 26 2 "x") (nId 27 30 2 "add")) [nLit 31 32 2 1]),
     nExpr 35 43 2 (nMem 35 42 2 (nId 35 36 2 "x") (nId 37 42 2 "shape"))])

/-- References of `x` in `progBorrowMethod`. -/
def refsBorrowMethod : List Ref :=
  [⟨[1, 0, 0, 0], false, true, []⟩,
   ⟨[2, 0, 0], false, true, []⟩]

/-- Source lines of `progBorrowMethod`: the directive sits on the line of
the method-call consuming site. -/
def borrowMethodLines : List String :=
  ["const x = np.zeros([3]);", "x.add(1); x.shape; // @jax-borrow"]

/-- `const x = np.zeros([3]); x.add(1); x.shape;` -/
def progChain : Node :=
  .mk 0 43 1 (.program
    [stmtXDecl,
     nExpr 25 34 1 (nCall 25 33 1
       (nMem 25 30 1 (nId 25 26 1 "x") (nId 27 30 1 "add")) [nLit 31 32 1 1]),
     nExpr 35 43 1 (nMem 35 42 1 (nId 35 36 1 "x") (nId 37 42 1 "shape"))])

/-- References of `x` in `progChain`. -/
def refsChain : List Ref :=
  [⟨[1, 0, 0, 0], false, true, []⟩,
   ⟨[2, 0, 0], false, true, []⟩]

/-- `const x = np.zeros([3]); x.ref.add(1); x.shape;` — `progChain` after
the suggested edit (insert `.ref` directly after the blamed identifier). -/
def progChainFixed : Node :=
  .mk 0 47 1 (.program
    [stmtXDecl,
     nExpr 25 38 1 (nCall 25 37 1
       (nMem 25 34 1
         (nMem 25 30 1 (nId 25 26 1 "x") (nId 27 30 1 "ref"))
         (nId 31 34 1 "add"))
       [nLit 35 36 1 1]),
     nExpr 39 47 1 (nMem 39 46 1 (nId 39 40 1 "x") (nId 41 46 1 "shape"))])

/-- References of `x` in `progChainFixed`. -/
def refsChainFixed : List Ref :=
  [⟨[1, 0, 0, 0, 0], false, true, []⟩,
   ⟨[2, 0, 0], false, true, []⟩]

/-- `const x = np.zeros([3]); x.add(1); x.mul(2); x.shape;` -/
def progDouble : Node :=
  .mk 0 53 1 (.program
    [stmtXDecl,
     nExpr 25 34 1 (nCall 25 33 1
       (nMem 25 30 1 (nId 25 26 1 "x") (nId 27 30 1 "add")) [nLit 31 32 1 1]),
     nExpr 35 44 1 (nCall 35 43 1
       (nMem 35 40 1 (nId 35 36 1 "x") (nId 37 40 1 "mul")) [nLit 41 42 1 2]),
     nExpr 45 53 1 (nMem 45 52 1 (nId 45 46 1 "x") (nId 47 52 1 "shape"))])

/-- References of `x` in `progDouble`. -/
def refsDouble : List Ref :=
  [⟨[1, 0, 0, 0], false, true, []⟩,
   ⟨[2, 0, 0, 0], false, true, []⟩,
   ⟨[3, 0, 0], false, true, []⟩]

/-- `const x = np.zeros([3]); x.ref.add(1); x.mul(2); x.shape;` —
`progDouble` after the suggested edit at the blamed site. -/
def progDoubleFixed : Node :=
  .mk 0 57 1 (.program
    [stmtXDecl,
     nExpr 25 38 1 (nCall 25 37 1
       (nMem 25 34 1
         (nMem 25 30 1 (nId 25 26 1 "x") (nId 27 30 1 "ref"))
         (nId 31 34 1 "add"))
       [nLit 35 36 1 1]),
     nExpr 39 48 1 (nCall 39 47 1
       (nMem 39 44 1 (nId 39 40 1 "x") (nId 41 44 1 "mul")) [nLit 45 46 1 2]),
     nExpr 49 57 1 (nMem 49 56 1 (nId 49 50 1 "x") (nId 51 56 1 "shape"))])

/-- References of `x` in `progDoubleFixed`. -/
def refsDoubleFixed : List Ref :=
  [⟨[1, 0, 0, 0, 0], false, true, []⟩,
   ⟨[2, 0, 0, 0], false, true, []⟩,
   ⟨[3, 0, 0], false, true, []⟩]

/-- `let x = np.zeros([3]); x.add(1); x = np.ones([3]); x.shape;` — a write
to the binding between the consuming site and the trailing read. -/
def progWrite : Node :=
  .mk 0 55 1 (.program
    [nDecl 0 22 1 4 21 (nId 4 5 1 "x")
       (nCall 8 21 1 (nMem 8 16 1 (nId 8 10 1 "np") (nId 11 16 1 "zeros"))
         [.mk 17 20 1 (.arrayExpr [nLit 18 19 1 3])]),
     nExpr 23 32 1 (nCall 23 31 1
       (nMem 23 28 1 (nId 23 24 1 "x") (nId 25 28 1 "add")) [nLit 29 30 1 1]),
     nExpr 33 46 1 (.mk 33 45 1 (.assignment (nId 33 34 1 "x")
       (nCall 37 45 1 (nMem 37 44 1 (nId 37 39 1 "np") (nId 40 44 1 "ones"))
         [.mk 42 45 1 (.arrayExpr [nLit 43 44 1 3])]))),
     nExpr 47 55 1 (nMem 47 54 1 (nId 47 48 1 "x") (nId 49 54 1 "shape"))])

/-- References of `x` in `progWrite`: read, write, read. -/
def refsWrite : List Ref :=
  [⟨[1, 0, 0, 0], false, true, []⟩,
   ⟨[2, 0, 0], true, false, []⟩,
   ⟨[3, 0, 0], false, true, []⟩]

/-- A call of a method of a named object:
`const x = np.zeros([3]); <objName>.<prop>(x);` (property node and
computed flag arbitrary) with the `x` argument at path `[1, 0, 1]`. -/
def objCallProg (objName : String) (propN : Node) (computed : Bool) : Node :=
  .mk 0 44 1 (.program
    [stmtXDecl,
     nExpr 25 44 1 (nCall 25 43 1
       (.mk 25 38 1 (.member (nId 25 32 1 objName) propN computed))
       [nId 40 41 1 "x"])])

/-- The statement `const x = array([1, 2, 3]);` at offset 0, line 1. -/
def stmtXArr : Node :=
  nDecl 0 27 1 6 26 (nId 6 7 1 "x")
    (nCall 10 26 1 (nId 10 15 1 "array")
      [.mk 16 25 1 (.arrayExpr [nLit 17 18 1 1, nLit 20 21 1 2,
                                nLit 23 24 1 3])])

/-- `const x = array([1, 2, 3]); const y = x.ref;` -/
def progRefLeak : Node :=
  .mk 0 44 1 (.program
    [stmtXArr,
     nDecl 28 44 1 34 43 (nId 34 35 1 "y")
       (nMem 38 43 1 (nId 38 39 1 "x") (nId 40 43 1 "ref"))])

/-- References of `x` in `progRefLeak` (declaration write included, as in
`variable.references`). -/
def refsRefLeak : List URRef :=
  [⟨[0, 0, 0], true, false⟩, ⟨[1, 0, 1, 0], false, true⟩]

/-- `const x = array([1, 2, 3]); const y = x.ref.add(z); console.log(x.shape);` -/
def progRefProps : Node :=
  .mk 0 73 1 (.program
    [stmtXArr,
     nDecl 28 51 1 34 50 (nId 34 35 1 "y")
       (nCall 38 50 1
         (nMem 38 47 1
           (nMem 38 43 1 (nId 38 39 1 "x") (nId 40 43 1 "ref"))
           (nId 44 47 1 "add"))
         [nId 48 49 1 "z"]),
     nExpr 52 73 1 (nCall 52 72 1
       (nMem 52 63 1 (nId 52 59 1 "console") (nId 60 63 1 "log"))
       [nMem 64 71 1 (nId 64 65 1 "x") (nId 66 71 1 "shape")])])

/-- References of `x` in `progRefProps`. -/
def refsRefProps : List URRef :=
  [⟨[0, 0, 0], true, false⟩,
   ⟨[1, 0, 1, 0, 0, 0], false, true⟩,
   ⟨[2, 0, 1, 0], false, true⟩]

/-- `const x = array([1, 2, 3]); const a = x.ref.dataSync(); const b = x.ref.dataSync(); x.dispose();` -/
def progRefTwice : Node :=
  .mk 0 96 1 (.program
    [stmtXArr,
     nDecl 28 55 1 34 54 (nId 34 35 1 "a")
       (nCall 38 54 1
         (nMem 38 52 1
           (nMem 38 43 1 (nId 38 39 1 "x") (nId 40 43 1 "ref"))
           (nId 44 52 1 "dataSync")) []),
     nDecl 56 83 1 62 82 (nId 62 63 1 "b")
       (nCall 66 82 1
         (nMem 66 80 1
           (nMem 66 71 1 (nId 66 67 1 "x") (nId 68 71 1 "ref"))
           (nId 72 80 1 "dataSync")) []),
     nExpr 84 96 1 (nCall 84 95 1
       (nMem 84 93 1 (nId 84 85 1 "x") (nId 86 93 1 "dispose")) [])])

/-- References of `x` in `progRefTwice`. -/
def refsRefTwice : List URRef :=
  [⟨[0, 0, 0], true, false⟩,
   ⟨[1, 0, 1, 0, 0, 0], false, true⟩,
   ⟨[2, 0, 1, 0, 0, 0], false, true⟩,
   ⟨[3, 0, 0, 0], false, true⟩]

/-- The initializer expression of `stmtXDecl` (`np.zeros([3])`). -/
def xInit : Option Node := nodeAt stmtXDecl [0, 1]

/-- The initializer of the declaration inside `progTermIf`. -/
def termIfInit : Option Node := nodeAt progTermIf [0, 1, 0, 0, 1]

/-- The initializer of the declaration of `progLoopAfter`. -/
def loopAfterInit : Option Node := nodeAt progLoopAfter [0, 0, 1]

/-- The initializer of the declaration of `progWrite`. -/
def writeInit : Option Node := nodeAt progWrite [0, 0, 1]

/-! ### Helper lemmas -/

/-- A consuming site returned by `getConsumingSite` records exactly the
reference it classified: its identifier path is the queried path. -/
theorem getConsumingSite_path {root : Node} {p : Path} {site : ConsumingSite}
    (h : getConsumingSite root p = some site) : site.path = p := by
  unfold getConsumingSite at h
  repeat' split at h
  all_goals simp_all
  all_goals (cases h; rfl)

/-- `stepThree` never reports a violation. -/
theorem stepThree_snd (root : Node) (lines : List String) (vn : String)
    (st : ScanState) (ref : Ref) :
    (stepThree root lines vn st ref).2 = [] := by
  unfold stepThree
  repeat' split
  all_goals rfl

/-- `stepThree` either leaves the state unchanged or installs a site
classified from the processed reference itself. -/
theorem stepThree_consumedBy (root : Node) (lines : List String)
    (vn : String) (st : ScanState) (ref : Ref) :
    (stepThree root lines vn st ref).1 = st ∨
      ∃ site, getConsumingSite root ref.path = some site ∧
        (stepThree root lines vn st ref).1.consumedBy = some site := by
  unfold stepThree
  repeat' split
  all_goals simp_all

/-- Each reset block either keeps the state or clears it completely. -/
theorem applyIfReset_cases (root : Node) (rs : Nat) (st : ScanState) :
    applyIfReset root rs st = st ∨ applyIfReset root rs st = emptySt := by
  unfold applyIfReset
  repeat' split
  all_goals simp

/-- Each reset block either keeps the state or clears it completely. -/
theorem applyCondReset_cases (root : Node) (rs : Nat) (st : ScanState) :
    applyCondReset root rs st = st ∨ applyCondReset root rs st = emptySt := by
  unfold applyCondReset
  repeat' split
  all_goals simp

/-- Each reset block either keeps the state or clears it completely. -/
theorem applyLoopReset_cases (root : Node) (rs : Nat) (st : ScanState) :
    applyLoopReset root rs st = st ∨ applyLoopReset root rs st = emptySt := by
  unfold applyLoopReset
  repeat' split
  all_goals simp

/-- A reset block does nothing when no consuming site is active. -/
theorem applyIfReset_none (root : Node) (rs : Nat) (st : ScanState)
    (h : st.consumedBy = none) : applyIfReset root rs st = st := by
  unfold applyIfReset
  split
  next heq _ => rw [h] at heq; cases heq
  next => rfl

/-- A reset block does nothing when no consuming site is active. -/
theorem applyCondReset_none (root : Node) (rs : Nat) (st : ScanState)
    (h : st.consumedBy = none) : applyCondReset root rs st = st := by
  unfold applyCondReset
  split
  next heq _ => rw [h] at heq; cases heq
  next => rfl

/-- A reset block does nothing when no consuming site is active. -/
theorem applyLoopReset_none (root : Node) (rs : Nat) (st : ScanState)
    (h : st.consumedBy = none) : applyLoopReset root rs st = st := by
  unfold applyLoopReset
  split
  next heq _ => rw [h] at heq; cases heq
  next => rfl

/-- The terminating-if reset clears the state once the reference lies
at/after the recorded if statement's end. -/
theorem applyIfReset_fires {root : Node} {rs : Nat} {st : ScanState}
    {site : ConsumingSite} {p : Path}
    (hcb : st.consumedBy = some site) (hif : st.consumedInIf = some p)
    (hend : rangeEndAt root p ≤ rs) :
    applyIfReset root rs st = emptySt := by
  unfold applyIfReset
  split
  next heq1 heq2 =>
    rw [hif] at heq2; cases heq2; rw [if_pos hend]
  next h => exact absurd (h _ _ hcb hif) (fun k => k)

/-- The loop reset clears the state once the reference lies after the
recorded loop's end. -/
theorem applyLoopReset_fires {root : Node} {rs : Nat} {st : ScanState}
    {site : ConsumingSite} {p : Path}
    (hcb : st.consumedBy = some site) (hloop : st.consumedInLoop = some p)
    (hend : rangeEndAt root p ≤ rs) :
    applyLoopReset root rs st = emptySt := by
  unfold applyLoopReset
  split
  next heq1 heq2 =>
    rw [hloop] at heq2; cases heq2; rw [if_pos hend]
  next h => exact absurd (h _ _ hcb hloop) (fun k => k)

/-- The terminating-if reset keeps the state when no if tag is recorded. -/
theorem applyIfReset_noTag (root : Node) (rs : Nat) (st : ScanState)
    (h : st.consumedInIf = none) : applyIfReset root rs st = st := by
  unfold applyIfReset
  split
  next heq1 heq2 => rw [h] at heq2; cases heq2
  next => rfl

/-- The conditional reset keeps the state when no conditional tag is
recorded. -/
theorem applyCondReset_noTag (root : Node) (rs : Nat) (st : ScanState)
    (h : st.consumedInConditional = none) : applyCondReset root rs st = st := by
  unfold applyCondReset
  split
  next heq1 heq2 => rw [h] at heq2; cases heq2
  next => rfl

/-- The conditional reset keeps the state while the reference still lies
inside the recorded conditional expression. -/
theorem applyCondReset_keep {root : Node} {rs : Nat} {st : ScanState}
    {p : Path}
    (hcond : st.consumedInConditional = some p)
    (hin : ¬(rangeEndAt root p ≤ rs)) :
    applyCondReset root rs st = st := by
  unfold applyCondReset
  split
  next heq1 heq2 =>
    rw [hcond] at heq2; cases heq2; rw [if_neg hin]
  next => rfl

/-- The loop reset keeps the state when no loop tag is recorded. -/
theorem applyLoopReset_noTag (root : Node) (rs : Nat) (st : ScanState)
    (h : st.consumedInLoop = none) : applyLoopReset root rs st = st := by
  unfold applyLoopReset
  split
  next heq1 heq2 => rw [h] at heq2; cases heq2
  next => rfl

/-! ### Claim theorems -/

/-- Claim C1 (counterexample): a reference that crosses a closure boundary
is NOT excluded entirely from the analysis — in
`const x = np.zeros([3]); x.add(1); const f = () => x.shape;` the read of
`x` inside the arrow function crosses a function-scope boundary, yet the
scan reports a use-after-consume violation at exactly that reference,
blaming the earlier `x.add(1)` site. -/
theorem claimC1_counterexample :
    refsClosure.get? 1 =
      some ⟨[2, 0, 1, 0, 0], false, true, ["function"]⟩ ∧
    isInNestedFunction ["function"] = true ∧
    analyzeBinding progClosure [] "x" xInit refsClosure =
      [⟨[2, 0, 1, 0, 0], "x", ".add()", 1, [1, 0, 0, 0]⟩] := by
  refine ⟨rfl, rfl, ?_⟩
  decide

/-- Claim C1 (amended): a closure-crossing read is skipped only when no
consuming site is active — it is not classified, never becomes the active
consuming site, and produces no violation, leaving the state unchanged.
(When a consuming site is already active, the closure-crossing read is
still reported, as the counterexample shows.) -/
theorem claimC1 (root : Node) (lines : List String) (vn : String)
    (st : ScanState) (ref : Ref)
    (hw : ref.isWrite = false)
    (hcb : st.consumedBy = none)
    (hnest : isInNestedFunction ref.scopesBetween = true) :
    processRef root lines vn st ref = (st, []) := by
  unfold processRef
  rw [hw]
  simp only [Bool.false_eq_true, if_false]
  cases hr : ref.isRead with
  | false => simp
  | true =>
    simp only [Bool.not_true, Bool.false_eq_true, if_false]
    rw [applyIfReset_none _ _ _ hcb, applyCondReset_none _ _ _ hcb,
      applyLoopReset_none _ _ _ hcb]
    split
    next site heq => rw [hcb] at heq; cases heq
    next =>
      unfold stepThree
      rw [hnest]
      simp

/-- Witness for C1 (amended), at the closure reference of `progClosure`
from the all-clear state. -/
theorem claimC1_witness :
    processRef progClosure [] "x" emptySt
      ⟨[2, 0, 1, 0, 0], false, true, ["function"]⟩ = (emptySt, []) :=
  claimC1 progClosure [] "x" emptySt _ rfl rfl rfl

/-- Claim C2: when the active consuming site sits in one branch of a
ternary and a later read in the opposite branch of that same ternary is
itself a fresh consuming site, the read is promoted to the new active
consumer with the conditional tag dropped and the other two tags
recomputed, without reporting a violation; consequently
`const x = np.zeros([3]); cond ? x.add(1) : x.sub(1); x.shape;` yields
exactly one use-after-consume violation, at the trailing `x.shape` read,
blaming the alternate branch's `.sub()` site. -/
theorem claimC2 (root : Node) (lines : List String) (vn : String)
    (st : ScanState) (ref : Ref) (site site2 : ConsumingSite) (cp : Path)
    (hw : ref.isWrite = false) (hr : ref.isRead = true)
    (hcb : st.consumedBy = some site)
    (hif : st.consumedInIf = none)
    (hcond : st.consumedInConditional = some cp)
    (hin : ¬(rangeEndAt root cp ≤ rangeStartAt root ref.path))
    (hloop : st.consumedInLoop = none)
    (hargs : isInArgumentsOfSameConsumingCall root ref.path site = false)
    (hex : areInMutuallyExclusiveBranches root ref.path site.path = true)
    (hsite2 : getConsumingSite root ref.path = some site2)
    (hre : isConsumeAndReassign root ref.path vn = false) :
    processRef root lines vn st ref =
      (⟨some site2, getTerminatingIfAncestor root ref.path, none,
        getEnclosingLoop root ref.path⟩, []) ∧
    analyzeBinding progTernary [] "x" xInit refsTernary =
      [⟨[2, 0, 0], "x", ".sub()", 1, [1, 0, 2, 0, 0]⟩] := by
  constructor
  · unfold processRef
    rw [hw]
    simp only [Bool.false_eq_true, if_false]
    rw [hr]
    simp only [Bool.not_true, Bool.false_eq_true, if_false]
    rw [applyIfReset_noTag _ _ _ hif, applyCondReset_keep hcond hin,
      applyLoopReset_noTag _ _ _ hloop]
    split
    next s heq =>
      rw [hcb] at heq
      injection heq with heq
      subst heq
      rw [hargs]
      simp only [Bool.false_eq_true, if_false]
      rw [hex]
      simp only [if_true]
      rw [hsite2]
      simp only [hre, Bool.not_false, if_true]
    next heq => rw [hcb] at heq; cases heq
  · decide

/-- Witness for C2, at the `x.sub(1)` reference of `progTernary` with the
`.add()` site active and tagged with the enclosing ternary. -/
theorem claimC2_witness :
    processRef progTernary [] "x"
      ⟨some ⟨".add()", [1, 0, 1, 0, 0], .method⟩, none, some [1, 0], none⟩
      ⟨[1, 0, 2, 0, 0], false, true, []⟩ =
      (⟨some ⟨".sub()", [1, 0, 2, 0, 0], .method⟩,
        getTerminatingIfAncestor progTernary [1, 0, 2, 0, 0], none,
        getEnclosingLoop progTernary [1, 0, 2, 0, 0]⟩, []) ∧
    analyzeBinding progTernary [] "x" xInit refsTernary =
      [⟨[2, 0, 0], "x", ".sub()", 1, [1, 0, 2, 0, 0]⟩] :=
  claimC2 progTernary [] "x" _ _ _ _ _ rfl rfl rfl rfl rfl (by decide) rfl
    (by decide) (by decide) (by decide) (by decide)

/-- Claim C3: when the active consuming site lies inside a terminating
if-branch and a later read starts at/after that if statement's end, the
consumption state is cleared and the read is not flagged against the
stored site (at most a fresh site classified from the read itself is
installed); in particular the early-return function
`function f() { const x = np.zeros([3]); if (c) { return x.reshape([1, 3]); } return x.reshape([3, 1]); }`
produces no violation. -/
theorem claimC3 (root : Node) (lines : List String) (vn : String)
    (st : ScanState) (ref : Ref) (site : ConsumingSite) (p : Path)
    (hw : ref.isWrite = false) (hr : ref.isRead = true)
    (hcb : st.consumedBy = some site)
    (hif : st.consumedInIf = some p)
    (hend : rangeEndAt root p ≤ rangeStartAt root ref.path) :
    (processRef root lines vn st ref).2 = [] ∧
    ((processRef root lines vn st ref).1.consumedBy = none ∨
      ∃ s2, (processRef root lines vn st ref).1.consumedBy = some s2 ∧
        s2.path = ref.path) ∧
    analyzeBinding progTermIf [] "x" termIfInit refsTermIf = [] := by
  have hred : processRef root lines vn st ref =
      stepThree root lines vn emptySt ref := by
    unfold processRef
    rw [hw]
    simp only [Bool.false_eq_true, if_false]
    rw [hr]
    simp only [Bool.not_true, Bool.false_eq_true, if_false]
    rw [applyIfReset_fires hcb hif hend,
      applyCondReset_none _ _ _ rfl, applyLoopReset_none _ _ _ rfl]
    rfl
  refine ⟨?_, ?_, by decide⟩
  · rw [hred]; exact stepThree_snd _ _ _ _ _
  · rw [hred]
    rcases stepThree_consumedBy root lines vn emptySt ref with h | ⟨s2, hs2, hcb2⟩
    · exact Or.inl (by rw [h]; rfl)
    · exact Or.inr ⟨s2, hcb2, getConsumingSite_path hs2⟩

/-- Witness for C3, at the second `return x.reshape([3, 1])` reference of
`progTermIf` with the first branch's `.reshape()` site active and tagged
with the terminating `if`. -/
theorem claimC3_witness :
    (processRef progTermIf [] "x"
      ⟨some ⟨".reshape()", [0, 1, 1, 1, 0, 0, 0, 0], .method⟩,
       some [0, 1, 1], none, none⟩
      ⟨[0, 1, 2, 0, 0, 0], false, true, []⟩).2 = [] ∧
    ((processRef progTermIf [] "x"
      ⟨some ⟨".reshape()", [0, 1, 1, 1, 0, 0, 0, 0], .method⟩,
       some [0, 1, 1], none, none⟩
      ⟨[0, 1, 2, 0, 0, 0], false, true, []⟩).1.consumedBy = none ∨
      ∃ s2, (processRef progTermIf [] "x"
        ⟨some ⟨".reshape()", [0, 1, 1, 1, 0, 0, 0, 0], .method⟩,
         some [0, 1, 1], none, none⟩
        ⟨[0, 1, 2, 0, 0, 0], false, true, []⟩).1.consumedBy = some s2 ∧
          s2.path = [0, 1, 2, 0, 0, 0]) ∧
    analyzeBinding progTermIf [] "x" termIfInit refsTermIf = [] :=
  claimC3 progTermIf [] "x" _ _ _ _ rfl rfl rfl rfl (by decide)

/-- Claim C4: when the active consuming site lies inside a loop body and a
later reference starts at/after the loop's end, the state is cleared and
no violation is emitted for that reference; a read inside the same loop
body after the consuming site is still flagged —
`const x = np.zeros([3]); while (c) { x.add(1); x.shape; }` yields exactly
one violation while
`let x = np.zeros([3]); while (c) { x.add(1); } x.dispose();` yields
none. -/
theorem claimC4 (root : Node) (lines : List String) (vn : String)
    (st : ScanState) (ref : Ref) (p : Path)
    (hloop : st.consumedInLoop = some p)
    (hend : rangeEndAt root p ≤ rangeStartAt root ref.path) :
    (processRef root lines vn st ref).2 = [] ∧
    analyzeBinding progLoopInside [] "x" xInit refsLoopInside =
      [⟨[1, 1, 1, 0, 0], "x", ".add()", 1, [1, 1, 0, 0, 0, 0]⟩] ∧
    analyzeBinding progLoopAfter [] "x" loopAfterInit refsLoopAfter = [] := by
  refine ⟨?_, by decide, by decide⟩
  unfold processRef
  cases hw : ref.isWrite with
  | true => simp
  | false =>
    simp only [Bool.false_eq_true, if_false]
    cases hr : ref.isRead with
    | false => simp
    | true =>
      simp only [Bool.not_true, Bool.false_eq_true, if_false]
      rcases applyIfReset_cases root (rangeStartAt root ref.path) st
        with h1 | h1 <;> rw [h1]
      · rcases applyCondReset_cases root (rangeStartAt root ref.path) st
          with h2 | h2 <;> rw [h2]
        · cases hcb : st.consumedBy with
          | none =>
            rw [applyLoopReset_none _ _ _ hcb]
            split
            next s heq => rw [hcb] at heq; cases heq
            next => exact stepThree_snd _ _ _ _ _
          | some site =>
            rw [applyLoopReset_fires hcb hloop hend]
            split
            next s heq => cases heq
            next => exact stepThree_snd _ _ _ _ _
        · rw [applyLoopReset_none _ _ _ rfl]
          split
          next s heq => cases heq
          next => exact stepThree_snd _ _ _ _ _
      · rw [applyCondReset_none _ _ _ rfl, applyLoopReset_none _ _ _ rfl]
        split
        next s heq => cases heq
        next => exact stepThree_snd _ _ _ _ _

/-- Witness for C4, at the `x.dispose()` reference of `progLoopAfter` with
the in-loop `.add()` site active and tagged with the `while` loop. -/
theorem claimC4_witness :
    (processRef progLoopAfter [] "x"
      ⟨some ⟨".add()", [1, 1, 0, 0, 0, 0], .method⟩, none, none, some [1]⟩
      ⟨[2, 0, 0, 0], false, true, []⟩).2 = [] ∧
    analyzeBinding progLoopInside [] "x" xInit refsLoopInside =
      [⟨[1, 1, 1, 0, 0], "x", ".add()", 1, [1, 1, 0, 0, 0, 0]⟩] ∧
    analyzeBinding progLoopAfter [] "x" loopAfterInit refsLoopAfter = [] :=
  claimC4 progLoopAfter [] "x" _ _ _ rfl (by decide)

/-- Claim C5: a read lying inside the argument list of the very call the
active consuming site belongs to is never reported (arguments evaluate
before the call), for both method-call and argument-pass consumption:
`const x = np.zeros([3]); x.reshape([1, ...x.shape]);` and
`const x = np.zeros([3]); foo(x, x.shape);` produce no violations. -/
theorem claimC5 (root : Node) (lines : List String) (vn : String)
    (st : ScanState) (ref : Ref) (site : ConsumingSite)
    (hcb : st.consumedBy = some site)
    (hargs : isInArgumentsOfSameConsumingCall root ref.path site = true) :
    (processRef root lines vn st ref).2 = [] ∧
    analyzeBinding progArgsMethod [] "x" xInit refsArgsMethod = [] ∧
    analyzeBinding progArgsPass [] "x" xInit refsArgsPass = [] := by
  refine ⟨?_, by decide, by decide⟩
  unfold processRef
  cases hw : ref.isWrite with
  | true => simp
  | false =>
    simp only [Bool.false_eq_true, if_false]
    cases hr : ref.isRead with
    | false => simp
    | true =>
      simp only [Bool.not_true, Bool.false_eq_true, if_false]
      rcases applyIfReset_cases root (rangeStartAt root ref.path) st
        with h1 | h1 <;> rw [h1]
      · rcases applyCondReset_cases root (rangeStartAt root ref.path) st
          with h2 | h2 <;> rw [h2]
        · rcases applyLoopReset_cases root (rangeStartAt root ref.path) st
            with h3 | h3 <;> rw [h3]
          · split
            next s heq =>
              rw [hcb] at heq
              injection heq with heq
              subst heq
              rw [hargs]
              simp
            next => exact stepThree_snd _ _ _ _ _
          · split
            next s heq => cases heq
            next => exact stepThree_snd _ _ _ _ _
        · rw [applyLoopReset_none _ _ _ rfl]
          split
          next s heq => cases heq
          next => exact stepThree_snd _ _ _ _ _
      · rw [applyCondReset_none _ _ _ rfl, applyLoopReset_none _ _ _ rfl]
        split
        next s heq => cases heq
        next => exact stepThree_snd _ _ _ _ _

/-- Witness for C5, at the `x.shape` reference inside the argument list of
`x.reshape([1, ...x.shape])` with that call's site active. -/
theorem claimC5_witness :
    (processRef progArgsMethod [] "x"
      ⟨some ⟨".reshape()", [1, 0, 0, 0], .method⟩, none, none, none⟩
      ⟨[1, 0, 1, 1, 0, 0], false, true, []⟩).2 = [] ∧
    analyzeBinding progArgsMethod [] "x" xInit refsArgsMethod = [] ∧
    analyzeBinding progArgsPass [] "x" xInit refsArgsPass = [] :=
  claimC5 progArgsMethod [] "x" _ _ _ rfl (by decide)

/-- Claim C6: a tracked binding passed directly as a call argument is
classified as an argument-pass consuming read, except when the callee is a
superclass-constructor call, when the callee is on the safe allow-lists,
or — for argument-pass sites only — when the call's line or the line above
carries the `@jax-borrow` directive; in the excepted cases it never becomes
the active consuming site.  The method-kind consuming site of
`progBorrowMethod` is still installed (and later flagged) even though its
line carries the directive. -/
theorem claimC6 (callee : Node) (st : ScanState) :
    (isSuperCallee callee = true →
      getConsumingSite (argProg callee) [1, 0, 1] = none) ∧
    (isSafeCallee callee = true →
      getConsumingSite (argProg callee) [1, 0, 1] = none) ∧
    (isSuperCallee callee = false → isSafeCallee callee = false →
      getConsumingSite (argProg callee) [1, 0, 1] =
        some ⟨describeCallee callee, [1, 0, 1], .argument⟩) ∧
    (st.consumedBy = none →
      processRef progBorrow borrowLines "x" st
        ⟨[1, 0, 1], false, true, []⟩ = (st, [])) ∧
    analyzeBinding progBorrow borrowLines "x" xInit refsBorrow = [] ∧
    analyzeBinding progBorrow noBorrowLines "x" xInit refsBorrow =
      [⟨[2, 0, 0, 0], "x", "myLogger()", 2, [1, 0, 1]⟩] ∧
    analyzeBinding progBorrowMethod borrowMethodLines "x" xInit
        refsBorrowMethod =
      [⟨[2, 0, 0], "x", ".add()", 2, [1, 0, 0, 0]⟩] := by
  have hgc : getConsumingSite (argProg callee) [1, 0, 1] =
      (if isSuperCallee callee then none
       else if isSafeCallee callee then none
       else some ⟨describeCallee callee, [1, 0, 1], .argument⟩) := rfl
  refine ⟨?_, ?_, ?_, ?_, by decide, by decide, by decide⟩
  · intro h; rw [hgc, h]; simp
  · intro h
    rw [hgc, h]
    by_cases hs : isSuperCallee callee = true <;> simp [hs]
  · intro h1 h2; rw [hgc, h1, h2]; simp
  · intro hcb
    unfold processRef
    simp only [Bool.false_eq_true, if_false, Bool.not_true]
    rw [applyIfReset_none _ _ _ hcb, applyCondReset_none _ _ _ hcb,
      applyLoopReset_none _ _ _ hcb]
    split
    next s heq => rw [hcb] at heq; cases heq
    next => rfl

/-- Witness for C6: a `super(x)` argument is not a site; an `expect(x)`
argument is not a site; a `foo(x)` argument is an argument-pass site; with
the `@jax-borrow` directive present the `myLogger(x)` argument never
becomes the active consuming site. -/
theorem claimC6_witness :
    getConsumingSite (argProg (.mk 25 30 1 .superNode)) [1, 0, 1] = none ∧
    getConsumingSite (argProg (nId 25 31 1 "expect")) [1, 0, 1] = none ∧
    getConsumingSite (argProg (nId 25 28 1 "foo")) [1, 0, 1] =
      some ⟨"foo()", [1, 0, 1], .argument⟩ ∧
    processRef progBorrow borrowLines "x" emptySt
      ⟨[1, 0, 1], false, true, []⟩ = (emptySt, []) :=
  ⟨(claimC6 (.mk 25 30 1 .superNode) emptySt).1 rfl,
   (claimC6 (nId 25 31 1 "expect") emptySt).2.1 rfl,
   (claimC6 (nId 25 28 1 "foo") emptySt).2.2.1 rfl rfl,
   (claimC6 (nId 25 28 1 "foo") emptySt).2.2.2.1 rfl⟩

/-- Claim C7 (counterexample): fix idempotence fails for
`const x = np.zeros([3]); x.add(1); x.mul(2); x.shape;` — the program has
use-after-consume violations (all blaming the `.add()` site), and applying
the suggested edit there (insert `.ref` after the blamed identifier,
giving `progDoubleFixed`) still leaves one violation for the binding after
re-analysis, blaming the `.mul()` site. -/
theorem claimC7_counterexample :
    analyzeBinding progDouble [] "x" xInit refsDouble =
      [⟨[2, 0, 0, 0], "x", ".add()", 1, [1, 0, 0, 0]⟩,
       ⟨[3, 0, 0], "x", ".add()", 1, [1, 0, 0, 0]⟩] ∧
    analyzeBinding progDoubleFixed [] "x" xInit refsDoubleFixed =
      [⟨[3, 0, 0], "x", ".mul()", 1, [2, 0, 0, 0]⟩] := by
  decide

/-- Claim C7 (amended): `ref` belongs to no consuming-method set, so after
the suggested edit the identifier — now the object of a `.ref` member
access — can never again be classified as a consuming site; when the
blamed site was the binding's only consuming reference, re-analysis yields
zero violations, as for the canonical
`const x = np.zeros([3]); x.add(1); x.shape;`. -/
theorem claimC7 (root : Node) (p : Path) (el : ChainEl)
    (rest : List ChainEl) (o pr : Node)
    (hchain : ancestorChain root p = el :: rest)
    (hshape : el.node.shape = .member o pr false)
    (hidx : el.idx = 0)
    (hprop : pr.shape = .identifier "ref") :
    getConsumingSite root p = none ∧
    ARRAY_RETURNING_METHODS.contains "ref" = false ∧
    CONSUMING_TERMINAL_METHODS.contains "ref" = false ∧
    analyzeBinding progChain [] "x" xInit refsChain =
      [⟨[2, 0, 0], "x", ".add()", 1, [1, 0, 0, 0]⟩] ∧
    analyzeBinding progChainFixed [] "x" xInit refsChainFixed = [] := by
  refine ⟨?_, by decide, by decide, by decide, by decide⟩
  unfold getConsumingSite
  rw [hchain]
  simp only [hshape, hidx, hprop]
  have hc : (!ARRAY_RETURNING_METHODS.contains "ref" &&
      !CONSUMING_TERMINAL_METHODS.contains "ref") = true := by decide
  simp [hc]
  intro h
  exact absurd (h (by decide)) (by decide)

/-- Witness for C7 (amended), at the rewritten blamed site of
`progChainFixed` (the `x` of `x.ref.add(1)`). -/
theorem claimC7_witness :
    getConsumingSite progChainFixed [1, 0, 0, 0, 0] = none ∧
    ARRAY_RETURNING_METHODS.contains "ref" = false ∧
    CONSUMING_TERMINAL_METHODS.contains "ref" = false ∧
    analyzeBinding progChain [] "x" xInit refsChain =
      [⟨[2, 0, 0], "x", ".add()", 1, [1, 0, 0, 0]⟩] ∧
    analyzeBinding progChainFixed [] "x" xInit refsChainFixed = [] :=
  claimC7 progChainFixed [1, 0, 0, 0, 0]
    ⟨nMem 25 30 1 (nId 25 26 1 "x") (nId 27 30 1 "ref"), 0, [1, 0, 0, 0]⟩
    (ancestorChain progChainFixed [1, 0, 0, 0, 0]).tail
    (nId 25 26 1 "x") (nId 27 30 1 "ref") rfl rfl rfl rfl

/-- A write reference resets the state and reports nothing. -/
theorem processRef_write (root : Node) (lines : List String) (vn : String)
    (st : ScanState) (ref : Ref) (hw : ref.isWrite = true) :
    processRef root lines vn st ref = (emptySt, []) := by
  unfold processRef
  rw [hw]
  simp

/-- The scan is compositional over list concatenation. -/
theorem scanRefs_append (root : Node) (lines : List String) (vn : String)
    (st : ScanState) (xs ys : List Ref) :
    scanRefs root lines vn st (xs ++ ys) =
      ((scanRefs root lines vn (scanRefs root lines vn st xs).1 ys).1,
       (scanRefs root lines vn st xs).2 ++
         (scanRefs root lines vn (scanRefs root lines vn st xs).1 ys).2) := by
  induction xs generalizing st with
  | nil => simp [scanRefs]
  | cons x xs ih =>
    show scanRefs root lines vn st (x :: (xs ++ ys)) = _
    simp only [scanRefs]
    rw [ih (processRef root lines vn st x).1]
    simp [List.append_assoc]

/-- One scan step either keeps the active site, clears it, or installs a
site classified from the processed reference itself (so its identifier
path is the reference's path). -/
theorem processRef_consumedBy (root : Node) (lines : List String)
    (vn : String) (st : ScanState) (ref : Ref) (site' : ConsumingSite)
    (h : (processRef root lines vn st ref).1.consumedBy = some site') :
    st.consumedBy = some site' ∨ site'.path = ref.path := by
  have hresets : ∀ st0 : ScanState,
      applyLoopReset root (rangeStartAt root ref.path)
        (applyCondReset root (rangeStartAt root ref.path)
          (applyIfReset root (rangeStartAt root ref.path) st0)) = st0 ∨
      applyLoopReset root (rangeStartAt root ref.path)
        (applyCondReset root (rangeStartAt root ref.path)
          (applyIfReset root (rangeStartAt root ref.path) st0)) = emptySt := by
    intro st0
    rcases applyIfReset_cases root (rangeStartAt root ref.path) st0
      with h1 | h1 <;> rw [h1]
    · rcases applyCondReset_cases root (rangeStartAt root ref.path) st0
        with h2 | h2 <;> rw [h2]
      · exact applyLoopReset_cases root _ st0
      · rw [applyLoopReset_none _ _ _ rfl]; right; rfl
    · rw [applyCondReset_none _ _ _ rfl, applyLoopReset_none _ _ _ rfl]
      right; rfl
  have hstep3 : ∀ st0 : ScanState,
      (stepThree root lines vn st0 ref).1.consumedBy = some site' →
      st0.consumedBy = some site' ∨ site'.path = ref.path := by
    intro st0 h0
    rcases stepThree_consumedBy root lines vn st0 ref with he | ⟨s, hs, hcb⟩
    · rw [he] at h0; exact Or.inl h0
    · rw [hcb] at h0
      injection h0 with h0
      subst h0
      exact Or.inr (getConsumingSite_path hs)
  unfold processRef at h
  by_cases hw : ref.isWrite = true
  · rw [hw] at h; simp [emptySt] at h
  · rw [Bool.not_eq_true] at hw
    rw [hw] at h
    simp only [Bool.false_eq_true, if_false] at h
    by_cases hr : ref.isRead = true
    · rw [hr] at h
      simp only [Bool.not_true, Bool.false_eq_true, if_false] at h
      rcases hresets st with hr3 | hr3 <;> rw [hr3] at h
      · split at h
        next s heq =>
          split at h
          next => exact Or.inl h
          next =>
            split at h
            next =>
              split at h
              next site2 heq2 =>
                split at h
                next =>
                  right
                  have h2 : site2 = site' := by simpa using h
                  rw [← h2]
                  exact getConsumingSite_path heq2
                next =>
                  rcases hstep3 emptySt h with h0 | h0
                  · rw [show emptySt.consumedBy = none from rfl] at h0
                    cases h0
                  · exact Or.inr h0
              next heq2 =>
                rcases hstep3 emptySt h with h0 | h0
                · rw [show emptySt.consumedBy = none from rfl] at h0
                  cases h0
                · exact Or.inr h0
            next => exact Or.inl h
        next heq => exact hstep3 st h
      · split at h
        next s heq =>
          rw [show emptySt.consumedBy = none from rfl] at heq; cases heq
        next =>
          rcases hstep3 emptySt h with h0 | h0
          · rw [show emptySt.consumedBy = none from rfl] at h0; cases h0
          · exact Or.inr h0
    · rw [Bool.not_eq_true] at hr
      rw [hr] at h
      simp at h
      exact Or.inl h

/-- One scan step reports violations only against the active site it
started with. -/
theorem processRef_blames (root : Node) (lines : List String) (vn : String)
    (st : ScanState) (ref : Ref) (v : Violation)
    (hv : v ∈ (processRef root lines vn st ref).2) :
    ∃ site, st.consumedBy = some site ∧
      v.fixInsertRefAfterPath = site.path := by
  unfold processRef at hv
  by_cases hw : ref.isWrite = true
  · rw [hw] at hv; simp at hv
  · rw [Bool.not_eq_true] at hw
    rw [hw] at hv
    simp only [Bool.false_eq_true, if_false] at hv
    by_cases hr : ref.isRead = true
    · rw [hr] at hv
      simp only [Bool.not_true, Bool.false_eq_true, if_false] at hv
      rcases applyIfReset_cases root (rangeStartAt root ref.path) st
        with h1 | h1 <;> rw [h1] at hv
      · rcases applyCondReset_cases root (rangeStartAt root ref.path) st
          with h2 | h2 <;> rw [h2] at hv
        · rcases applyLoopReset_cases root (rangeStartAt root ref.path) st
            with h3 | h3 <;> rw [h3] at hv
          · split at hv
            next s heq =>
              split at hv
              · simp at hv
              · split at hv
                · split at hv
                  · split at hv
                    · simp at hv
                    · rw [stepThree_snd] at hv; simp at hv
                  · rw [stepThree_snd] at hv; simp at hv
                · simp at hv
                  exact ⟨s, heq, by rw [hv]⟩
            next => rw [stepThree_snd] at hv; simp at hv
          · split at hv
            next s heq =>
              rw [show emptySt.consumedBy = none from rfl] at heq; cases heq
            next => rw [stepThree_snd] at hv; simp at hv
        · rw [applyLoopReset_none _ _ _ rfl] at hv
          split at hv
          next s heq =>
            rw [show emptySt.consumedBy = none from rfl] at heq; cases heq
          next => rw [stepThree_snd] at hv; simp at hv
      · rw [applyCondReset_none _ _ _ rfl,
          applyLoopReset_none _ _ _ rfl] at hv
        split at hv
        next s heq =>
          rw [show emptySt.consumedBy = none from rfl] at heq; cases heq
        next => rw [stepThree_snd] at hv; simp at hv
    · rw [Bool.not_eq_true] at hr
      rw [hr] at hv
      simp at hv

/-- Every violation the scan reports blames a site whose identifier path
is either the starting state's active-site path or the path of one of the
scanned references. -/
theorem scanRefs_blames (root : Node) (lines : List String) (vn : String)
    (refs : List Ref) (st : ScanState) (P : Path → Prop)
    (hst : ∀ site, st.consumedBy = some site → P site.path)
    (hrefs : ∀ r ∈ refs, P r.path) :
    (∀ v ∈ (scanRefs root lines vn st refs).2, P v.fixInsertRefAfterPath) ∧
    (∀ site, (scanRefs root lines vn st refs).1.consumedBy = some site →
      P site.path) := by
  induction refs generalizing st with
  | nil => exact ⟨by simp [scanRefs], fun site h => hst site (by simpa [scanRefs] using h)⟩
  | cons r rest ih =>
    have hst' : ∀ site,
        (processRef root lines vn st r).1.consumedBy = some site →
        P site.path := by
      intro site h
      rcases processRef_consumedBy root lines vn st r site h with h0 | h0
      · exact hst site h0
      · rw [h0]; exact hrefs r (by simp)
    have hrest : ∀ x ∈ rest, P x.path := fun x hx => hrefs x (by simp [hx])
    obtain ⟨ihv, ihs⟩ := ih (processRef root lines vn st r).1 hst' hrest
    constructor
    · intro v hv
      simp only [scanRefs, List.mem_append] at hv
      rcases hv with hv | hv
      · obtain ⟨site, hcb, hpath⟩ := processRef_blames root lines vn st r v hv
        rw [hpath]; exact hst site hcb
      · exact ihv v hv
    · intro site h
      exact ihs site (by simpa [scanRefs] using h)

/-- Claim C9: the scan keeps at most one active consuming site (an
`Option`-typed field updated in place), a write reference clears it and
all tags, and therefore no read after a write is ever flagged against a
consuming site recorded before the write: the violations after the write
are those of a fresh scan of the suffix, and every one of them blames a
site at the path of a suffix reference. -/
theorem claimC9 (root : Node) (lines : List String) (vn : String)
    (st : ScanState) (pre post : List Ref) (w : Ref)
    (hw : w.isWrite = true) :
    processRef root lines vn st w = (emptySt, []) ∧
    (scanRefs root lines vn st (pre ++ w :: post)).2 =
      (scanRefs root lines vn st pre).2 ++
        (scanRefs root lines vn emptySt post).2 ∧
    (∀ v ∈ (scanRefs root lines vn emptySt post).2,
      v.fixInsertRefAfterPath ∈ post.map Ref.path) ∧
    analyzeBinding progWrite [] "x" writeInit refsWrite = [] := by
  refine ⟨processRef_write root lines vn st w hw, ?_, ?_, by decide⟩
  · rw [scanRefs_append]
    simp only [scanRefs, processRef_write root lines vn _ w hw]
    simp
  · exact (scanRefs_blames root lines vn post emptySt
      (fun q => q ∈ post.map Ref.path)
      (fun site h => by rw [show emptySt.consumedBy = none from rfl] at h; cases h)
      (fun r hr => List.mem_map_of_mem Ref.path hr)).1

/-- Witness for C9, on `progWrite` (`x.add(1)` before the write,
`x = np.ones([3])` as the write, `x.shape` after it). -/
theorem claimC9_witness :
    processRef progWrite [] "x" emptySt ⟨[2, 0, 0], true, false, []⟩ =
      (emptySt, []) ∧
    (scanRefs progWrite [] "x" emptySt
      ([⟨[1, 0, 0, 0], false, true, []⟩] ++
        ⟨[2, 0, 0], true, false, []⟩ :: [⟨[3, 0, 0], false, true, []⟩])).2 =
      (scanRefs progWrite [] "x" emptySt
        [⟨[1, 0, 0, 0], false, true, []⟩]).2 ++
        (scanRefs progWrite [] "x" emptySt
          [⟨[3, 0, 0], false, true, []⟩]).2 ∧
    (∀ v ∈ (scanRefs progWrite [] "x" emptySt
        [⟨[3, 0, 0], false, true, []⟩]).2,
      v.fixInsertRefAfterPath ∈
        ([⟨[3, 0, 0], false, true, []⟩] : List Ref).map Ref.path) ∧
    analyzeBinding progWrite [] "x" writeInit refsWrite = [] :=
  claimC9 progWrite [] "x" emptySt
    [⟨[1, 0, 0, 0], false, true, []⟩] [⟨[3, 0, 0], false, true, []⟩]
    ⟨[2, 0, 0], true, false, []⟩ rfl

/-- Claim C8: for a `.ref` keep-alive access on a non-borrowed,
non-closure-captured binding with no earlier consuming read: an empty
suffix of later references gives exactly the useless-keep-alive report
with the marker-removing autofix; a suffix containing another `.ref`
access on the binding gives no report; a non-empty suffix of only
non-consuming property reads gives the report carrying the collected
property names and the suggested `.dispose()` insertion after the
statement holding the last read. -/
theorem claimC8 (root : Node) (memberPath : Path) (refs : List URRef)
    (scopes : List String) (s e ln : Nat) (objNode propN : Node)
    (target : TrackedTarget) (idx : Nat)
    (hnode : nodeAt root memberPath =
      some (.mk s e ln (.member objNode propN false)))
    (hprop : propN.shape = .identifier "ref")
    (htgt : getTrackedTarget objNode = some target)
    (hcl : isClosureCapture scopes = false)
    (hidx : urRefIdx root target (urRefFilter root target refs) = some idx)
    (hprior : urPriorConsuming root target (urRefFilter root target refs) idx
      = false) :
    ((urRefFilter root target refs).drop (idx + 1) = [] →
      noUnnecessaryRefCheck root memberPath refs false scopes =
        some (.unnecessaryRef memberPath)) ∧
    (urLaterRefAccess root target
        ((urRefFilter root target refs).drop (idx + 1)) = true →
      noUnnecessaryRefCheck root memberPath refs false scopes = none) ∧
    (∀ props,
      urLaterRefAccess root target
        ((urRefFilter root target refs).drop (idx + 1)) = false →
      collectNonConsumingProps root target.targetPath []
        ((urRefFilter root target refs).drop (idx + 1)) = some props →
      props ≠ [] →
      noUnnecessaryRefCheck root memberPath refs false scopes =
        some (urOnlyPropsReport root memberPath props
          ((urRefFilter root target refs).drop (idx + 1)))) := by
  have hred : noUnnecessaryRefCheck root memberPath refs false scopes =
      (let after := (urRefFilter root target refs).drop (idx + 1)
       if after.isEmpty then some (.unnecessaryRef memberPath)
       else if urLaterRefAccess root target after then none
       else
         match collectNonConsumingProps root target.targetPath [] after with
         | some props =>
           if props.length > 0 then
             some (urOnlyPropsReport root memberPath props after)
           else none
         | none => none) := by
    cases propN with
    | mk ps pe pln psh =>
      simp only [Node.shape] at hprop
      subst hprop
      unfold noUnnecessaryRefCheck
      rw [hnode]
      simp only [Node.shape, htgt, hcl, hidx, hprior]
      simp
  refine ⟨?_, ?_, ?_⟩
  · intro hafter
    rw [hred]
    simp [hafter]
  · intro hlater
    have hne : ((urRefFilter root target refs).drop (idx + 1)).isEmpty
        = false := by
      cases hd : (urRefFilter root target refs).drop (idx + 1) with
      | nil => rw [hd] at hlater; simp [urLaterRefAccess] at hlater
      | cons a l => simp [hd]
    rw [hred]
    simp only [hne, Bool.false_eq_true, if_false, hlater, if_true]
  · intro props hlater hcollect hne
    have hne2 : ((urRefFilter root target refs).drop (idx + 1)).isEmpty
        = false := by
      cases hd : (urRefFilter root target refs).drop (idx + 1) with
      | nil =>
        rw [hd] at hcollect
        simp only [collectNonConsumingProps] at hcollect
        injection hcollect with hcollect
        exact absurd hcollect.symm hne
      | cons a l => simp [hd]
    rw [hred]
    simp only [hne2, Bool.false_eq_true, if_false, hlater, hcollect]
    have hlen : props.length > 0 := by
      cases props with
      | nil => exact absurd rfl hne
      | cons a l => simp
    simp [hlen]

/-- Witness for C8, on the three scenario programs: empty suffix
(`progRefLeak`), non-consuming-properties suffix (`progRefProps`), and a
suffix containing another `.ref` access (`progRefTwice`). -/
theorem claimC8_witness :
    noUnnecessaryRefCheck progRefLeak [1, 0, 1] refsRefLeak false [] =
      some (.unnecessaryRef [1, 0, 1]) ∧
    noUnnecessaryRefCheck progRefProps [1, 0, 1, 0, 0] refsRefProps false []
      = some (.onlyProps [1, 0, 1, 0, 0] ["shape"] (some 73)) ∧
    noUnnecessaryRefCheck progRefTwice [1, 0, 1, 0, 0] refsRefTwice false []
      = none := by
  refine ⟨?_, ?_, ?_⟩
  · exact (claimC8 progRefLeak [1, 0, 1] refsRefLeak [] 38 43 1
      (nId 38 39 1 "x") (nId 40 43 1 "ref") ⟨"x", 38, "x"⟩ 1
      rfl rfl rfl rfl (by decide) (by decide)).1 (by decide)
  · exact (claimC8 progRefProps [1, 0, 1, 0, 0] refsRefProps [] 38 43 1
      (nId 38 39 1 "x") (nId 40 43 1 "ref") ⟨"x", 38, "x"⟩ 1
      rfl rfl rfl rfl (by decide) (by decide)).2.2 ["shape"]
      (by decide) (by decide) (by decide)
  · exact (claimC8 progRefTwice [1, 0, 1, 0, 0] refsRefTwice [] 38 43 1
      (nId 38 39 1 "x") (nId 40 43 1 "ref") ⟨"x", 38, "x"⟩ 1
      rfl rfl rfl rfl (by decide) (by decide)).2.1 (by decide)

/-- Claim C10: the safe-callee test for member-expression callees inspects
only the object's identifier name — never the property and never the
computed flag — so a call `o.m(x)` or `o[m](x)` whose object is named
console, assert, JSON, Object, Array or Math never classifies a direct
argument as consuming, whatever method `m` is. -/
theorem claimC10 (objName : String) (s e ln os oe oln : Nat)
    (propN : Node) (computed : Bool)
    (h : SAFE_CALLEE_OBJECTS.contains objName = true) :
    isSafeCallee (.mk s e ln (.member (nId os oe oln objName) propN computed))
      = true ∧
    getConsumingSite (objCallProg objName propN computed) [1, 0, 1] =
      none := by
  have h1 : isSafeCallee
      (.mk s e ln (.member (nId os oe oln objName) propN computed)) =
        SAFE_CALLEE_OBJECTS.contains objName := rfl
  have hgc : getConsumingSite (objCallProg objName propN computed) [1, 0, 1]
      = (if SAFE_CALLEE_OBJECTS.contains objName then none
         else some
           ⟨describeCallee
              (.mk 25 38 1 (.member (nId 25 32 1 objName) propN computed)),
            [1, 0, 1], .argument⟩) := rfl
  exact ⟨by rw [h1, h], by rw [hgc, h]; simp⟩

/-- Witness for C10: `Array.from(x)` is a safe callee and not a consuming
site, and even a computed access `console[m](x)` is not a consuming
site. -/
theorem claimC10_witness :
    isSafeCallee
      (.mk 0 10 1 (.member (nId 0 5 1 "Array") (nId 6 10 1 "from") false))
      = true ∧
    getConsumingSite (objCallProg "Array" (nId 33 37 1 "from") false)
      [1, 0, 1] = none ∧
    getConsumingSite (objCallProg "console" (nId 33 34 1 "m") true)
      [1, 0, 1] = none :=
  ⟨(claimC10 "Array" 0 10 1 0 5 1 (nId 6 10 1 "from") false rfl).1,
   (claimC10 "Array" 0 10 1 0 5 1 (nId 33 37 1 "from") false rfl).2,
   (claimC10 "console" 0 10 1 0 5 1 (nId 33 34 1 "m") true rfl).2⟩

end JaxLint
